import Mathlib

/-!
Verification development for the TRTS symbolic-dynamics simulator
(operation_pretzel). The embedding follows the final ("CREED") generation of
the C sources: `simulate.c` (run_simulation / simulate_stream), `engine.c`
(engine_step and its helpers), `psi.c` (psi_transform, standard_psi,
triple_psi, is_fibonacci_tick), the five-argument `koppa_accrue`
(the koppa accumulator with multi-level stack and sampling), and the extended
`Config` / `TRTS_State` declarations.

Rationals are raw (numerator, denominator) pairs of unbounded integers; the
strict arithmetic layer stores cross-multiplied components with no reduction.
The implementation file of that strict layer is not present in src (only its
header, RATIONAL_STRICT_H, and its callers are), so each of its operations
below is modelled from the spec, faithful to §3 / §4.1. The earlier
generation's `rational.c` (which calls mpq_canonicalize) is embedded
separately as the `_c`-suffixed operations.

GMP's probabilistic Miller-Rabin test (`mpz_probab_prime_p`) is modelled as
exact primality: it is deterministic in GMP and the spec treats it as a
primality test. The single floating-point snapshot (`mpq_get_d` inside
`ratio_threshold_outside`) is modelled by the exact rational comparison
|r| < 1/2 or |r| > 2; 0.5 and 2.0 are exactly representable doubles and the
snapshot never feeds back into state.
-/

/-- A raw rational: numerator and denominator kept exactly as produced, no
reduction (mirrors `mpq_t` used as a raw component pair). -/
structure TRat where
  num : Int
  den : Int
deriving DecidableEq, Repr

/-- Modelled from the spec: strict-layer `rational_set_si` stores the raw
pair with no post-normalization (§4.1); implementation absent from src,
declared in RATIONAL_STRICT_H (unnamed/part_017). -/
def rational_set_si (n d : Int) : TRat := ⟨n, d⟩

/-- Modelled from the spec: strict-layer addition on raw components,
a/b + c/d = (ad + cb)/(bd) (§3); implementation absent from src. -/
def rational_add (a b : TRat) : TRat :=
  ⟨a.num * b.den + b.num * a.den, a.den * b.den⟩

/-- Modelled from the spec: strict-layer subtraction on raw components
(§3, "subtraction ... operate[s] on the numerator" after cross-multiplying);
implementation absent from src. -/
def rational_sub (a b : TRat) : TRat :=
  ⟨a.num * b.den - b.num * a.den, a.den * b.den⟩

/-- Modelled from the spec: strict-layer multiplication,
a/b · c/d = (ac)/(bd) (§3); implementation absent from src. -/
def rational_mul (a b : TRat) : TRat :=
  ⟨a.num * b.num, a.den * b.den⟩

/-- Modelled from the spec: strict-layer division,
a/b ÷ c/d = (ad)/(bc) (§3); implementation absent from src. -/
def rational_div (a b : TRat) : TRat :=
  ⟨a.num * b.den, a.den * b.num⟩

/-- Modelled from the spec: negation operates on the numerator (§3);
implementation absent from src. -/
def rational_negate (a : TRat) : TRat := ⟨-a.num, a.den⟩

/-- Modelled from the spec: delta helper a − b (§4.1); implementation absent
from src. -/
def rational_delta (current previous : TRat) : TRat :=
  rational_sub current previous

/-- Zero test uses the numerator (mirrors `rational_is_zero` /
`mpq_sgn(value) == 0`). -/
def rational_is_zero (a : TRat) : Bool := a.num == 0

/-- Modelled from the spec: absolute numerator (§4.1, `rational_abs_num`);
implementation absent from src. -/
def rational_abs_num (a : TRat) : Nat := a.num.natAbs

/-- Floor of the rational's value (used only by the `mod` helper below).
`Int.fdiv` floors for a positive denominator; a negative denominator is
normalised first. -/
def rational_floor (a : TRat) : Int :=
  if a.den < 0 then Int.fdiv (-a.num) (-a.den) else Int.fdiv a.num a.den

/-- Modelled from the spec: `mod (defined as a − ⌊a/b⌋·b)` (§4.1); a divisor
with zero numerator makes the wrap a no-op (§9, open question 2);
implementation absent from src. -/
def rational_mod (a b : TRat) : TRat :=
  if rational_is_zero b then a
  else rational_sub a ⟨rational_floor (rational_div a b) * b.num, b.den⟩

/-- GMP `mpq_canonicalize`: divide out the gcd of numerator and denominator
and make the denominator positive (0 becomes 0/1). A zero denominator is a
GMP precondition violation; kept as identity to stay total. -/
def mpq_canonicalize (a : TRat) : TRat :=
  if a.den = 0 then a
  else if a.den < 0 then
    ⟨-a.num / ((Int.gcd a.num a.den : Nat) : Int),
     -a.den / ((Int.gcd a.num a.den : Nat) : Int)⟩
  else
    ⟨a.num / ((Int.gcd a.num a.den : Nat) : Int),
     a.den / ((Int.gcd a.num a.den : Nat) : Int)⟩

/-- `rational_add` of the earlier generation's `rational.c` (src/rational.c
lines 21-24): `mpq_add` followed by `mpq_canonicalize`, i.e. the fully
reduced form of the exact sum. -/
def rational_add_c (a b : TRat) : TRat :=
  mpq_canonicalize (rational_add a b)

/-- `rational_set_si` of the earlier generation's `rational.c`
(src/rational.c lines 16-19): `mpq_set_si` followed by `mpq_canonicalize`. -/
def rational_set_si_c (n d : Int) : TRat :=
  mpq_canonicalize ⟨n, d⟩

/-- The exact rational value carried by a raw component pair. -/
def ratVal (a : TRat) : Rat := (a.num : Rat) / (a.den : Rat)

/-- Trial-division primality on naturals; models `mpz_probab_prime_p`
(deterministic in GMP) as exact primality. -/
def isPrimeNat (n : Nat) : Bool :=
  decide (2 ≤ n) && (List.range n).all (fun d => d < 2 || n % d != 0)

/-- `mpz_is_prime_signed` (simulate.c lines 29-42): primality of |n|,
false for |n| < 2. -/
def mpz_is_prime_signed (n : Int) : Bool := isPrimeNat n.natAbs

/-- `mpz_is_square` (simulate.c lines 45-59): non-negative and equal to the
square of its integer square root. -/
def mpz_is_square (n : Int) : Bool :=
  decide (0 ≤ n) && Nat.sqrt n.toNat * Nat.sqrt n.toNat == n.toNat

/-- `mpz_is_fibonacci` (simulate.c lines 63-81): |n| is Fibonacci iff
5n²+4 or 5n²−4 is a perfect square. -/
def mpz_is_fibonacci (n : Int) : Bool :=
  let a : Int := (n.natAbs : Nat)
  mpz_is_square (5 * a * a + 4) || mpz_is_square (5 * a * a - 4)

/-- Truncated integer k-th root (models GMP `mpz_root` on naturals). -/
def kthRootNat (n k : Nat) : Nat :=
  (List.range (n + 2)).foldl (fun acc r => if r ^ k ≤ n then r else acc) 0

/-- `mpz_is_perfect_power` (simulate.c lines 86-108): n > 0 is a k-th power
for some k in [2, 64]. -/
def mpz_is_perfect_power (n : Int) : Bool :=
  if n ≤ 0 then false
  else ((List.range 63).map (· + 2)).any fun k =>
    let r := kthRootNat n.toNat k
    decide (0 < r) && r ^ k == n.toNat

/-- ψ firing modes (config.h). -/
inductive PsiMode
  | MSTEP
  | RHO_ONLY
  | MSTEP_RHO
  | INHIBIT_RHO
deriving DecidableEq, Repr

/-- ϙ accumulator base-reset modes (config.h). -/
inductive KoppaMode
  | DUMP
  | POP
  | ACCUMULATE
deriving DecidableEq, Repr

/-- Engine modes (config.h, extended generation with DELTA_ADD). -/
inductive EngineMode
  | ADD
  | MULTI
  | SLIDE
  | DELTA_ADD
deriving DecidableEq, Repr

/-- Per-component track modes (config.h). -/
inductive EngineTrackMode
  | ADD
  | MULTI
  | SLIDE
deriving DecidableEq, Repr

/-- ϙ accrual trigger selection (config.h). -/
inductive KoppaTrigger
  | ON_PSI
  | ON_MU_AFTER_PSI
  | ON_ALL_MU
deriving DecidableEq, Repr

/-- Prime-detection target selection (config.h). -/
inductive PrimeTarget
  | PRIME_ON_MEMORY
  | PRIME_ON_NEW_UPSILON
deriving DecidableEq, Repr

/-- Microtick-10 behaviour (config.h). -/
inductive Mt10Behavior
  | FORCED_EMISSION_ONLY
  | FORCED_PSI
deriving DecidableEq, Repr

/-- Ratio-window trigger modes (config.h, extended generation with CUSTOM). -/
inductive RatioTriggerMode
  | NONE
  | GOLDEN
  | SQRT2
  | PLASTIC
  | CUSTOM
deriving DecidableEq, Repr

/-- Sign-flip modes (config.h). -/
inductive SignFlipMode
  | NONE
  | ALWAYS
  | ALTERNATE
deriving DecidableEq, Repr

/-- The extended `Config` (config.h of the final generation, embedded in
config.c). `modulus_bound` is omitted: it is declared but read nowhere in
the core. -/
structure Config where
  psi_mode : PsiMode
  koppa_mode : KoppaMode
  engine_mode : EngineMode
  engine_upsilon : EngineTrackMode
  engine_beta : EngineTrackMode
  dual_track_mode : Bool
  triple_psi_mode : Bool
  multi_level_koppa : Bool
  koppa_trigger : KoppaTrigger
  prime_target : PrimeTarget
  mt10_behavior : Mt10Behavior
  ratio_trigger_mode : RatioTriggerMode
  ticks : Nat
  initial_upsilon : TRat
  initial_beta : TRat
  initial_koppa : TRat
  enable_asymmetric_cascade : Bool
  enable_conditional_triple_psi : Bool
  enable_koppa_gated_engine : Bool
  enable_delta_cross_propagation : Bool
  enable_delta_koppa_offset : Bool
  enable_ratio_threshold_psi : Bool
  enable_stack_depth_modes : Bool
  enable_epsilon_phi_triangle : Bool
  enable_sign_flip : Bool
  enable_modular_wrap : Bool
  enable_psi_strength_parameter : Bool
  enable_ratio_snapshot_logging : Bool
  enable_feedback_oscillator : Bool
  enable_fibonacci_gate : Bool
  sign_flip_mode : SignFlipMode
  koppa_wrap_threshold : Nat
  enable_ratio_custom_range : Bool
  ratio_custom_lower : TRat
  ratio_custom_upper : TRat
  enable_twin_prime_trigger : Bool
  enable_fibonacci_trigger : Bool
  enable_perfect_power_trigger : Bool
deriving DecidableEq, Repr

/-- The `TRTS_State` of the final generation (unnamed/part_015). The ϙ-stack
is modelled as the meaningful prefix (`koppa_stack_size` = its length;
unused slots hold 0/1 and are not observable through any embedded path).
`tick` carries the current tick for the Fibonacci gate: `psi.c` reads
`state->tick`, but no state declaration or assignment of that field survives
in src, so its maintenance is modelled from the spec ("Tick counter (for
Fibonacci-tick gating inside ψ)", §3): the loop's current tick number. -/
structure TRTSState where
  upsilon : TRat
  beta : TRat
  koppa : TRat
  epsilon : TRat
  phi : TRat
  previous_upsilon : TRat
  previous_beta : TRat
  delta_upsilon : TRat
  delta_beta : TRat
  triangle_phi_over_epsilon : TRat
  triangle_prev_over_phi : TRat
  triangle_epsilon_over_prev : TRat
  koppa_stack : List TRat
  koppa_sample : TRat
  koppa_sample_index : Int
  rho_pending : Bool
  rho_latched : Bool
  psi_recent : Bool
  ratio_triggered_recent : Bool
  psi_triple_recent : Bool
  dual_engine_last_step : Bool
  ratio_threshold_recent : Bool
  psi_strength_applied : Bool
  sign_flip_polarity : Bool
  tick : Nat
deriving DecidableEq, Repr

/-- `state_reset` (config.c, final-generation state.c, lines 219-249):
seed from the Config's initial values; ε = υ₀, φ = β₀, previous = seeds,
stack empty, flags false, sample = ϙ with index −1. -/
def state_reset (config : Config) : TRTSState where
  upsilon := config.initial_upsilon
  beta := config.initial_beta
  koppa := config.initial_koppa
  epsilon := config.initial_upsilon
  phi := config.initial_beta
  previous_upsilon := config.initial_upsilon
  previous_beta := config.initial_beta
  delta_upsilon := rational_set_si 0 1
  delta_beta := rational_set_si 0 1
  triangle_phi_over_epsilon := rational_set_si 0 1
  triangle_prev_over_phi := rational_set_si 0 1
  triangle_epsilon_over_prev := rational_set_si 0 1
  koppa_stack := []
  koppa_sample := config.initial_koppa
  koppa_sample_index := -1
  rho_pending := false
  rho_latched := false
  psi_recent := false
  ratio_triggered_recent := false
  psi_triple_recent := false
  dual_engine_last_step := false
  ratio_threshold_recent := false
  psi_strength_applied := false
  sign_flip_polarity := false
  tick := 0

/-- The stray file-scope ratio-trigger globals of engine.c (lines 27-29).
They are defined but never read anywhere in the repository; threading them
through the engine makes that non-interference provable. The two double
literals are carried as exact rationals (they are never used). -/
structure EngineGlobals where
  ratio_trigger_enabled : Int
  ratio_trigger_min : Rat
  ratio_trigger_max : Rat

/-- `convert_engine_mode` (engine.c lines 32-44): DELTA_ADD maps to the ADD
track mode (delta-add is handled separately). -/
def convert_engine_mode : EngineMode → EngineTrackMode
  | EngineMode.ADD => EngineTrackMode.ADD
  | EngineMode.MULTI => EngineTrackMode.MULTI
  | EngineMode.SLIDE => EngineTrackMode.SLIDE
  | EngineMode.DELTA_ADD => EngineTrackMode.ADD

/-- `apply_asymmetric_modes` (engine.c lines 46-72): per-microtick override
of the two track modes when the asymmetric cascade is enabled. -/
def apply_asymmetric_modes (config : Config) (microtick : Nat)
    (ups_mode beta_mode : EngineTrackMode) : EngineTrackMode × EngineTrackMode :=
  if !config.enable_asymmetric_cascade then (ups_mode, beta_mode)
  else if microtick = 1 then (EngineTrackMode.MULTI, EngineTrackMode.ADD)
  else if microtick = 4 then (EngineTrackMode.ADD, EngineTrackMode.SLIDE)
  else if microtick = 7 then (EngineTrackMode.SLIDE, EngineTrackMode.MULTI)
  else if microtick = 10 then (EngineTrackMode.ADD, EngineTrackMode.ADD)
  else (ups_mode, beta_mode)

/-- `apply_stack_depth_mode` (engine.c lines 74-91): ϙ-stack depth override
of a track mode. -/
def apply_stack_depth_mode (config : Config) (state : TRTSState)
    (base_mode : EngineTrackMode) : EngineTrackMode :=
  if !config.enable_stack_depth_modes then base_mode
  else
    let depth := state.koppa_stack.length
    if depth ≤ 1 then EngineTrackMode.ADD
    else if depth ≤ 3 then EngineTrackMode.MULTI
    else if depth = 4 then EngineTrackMode.SLIDE
    else EngineTrackMode.ADD

/-- `apply_koppa_gate` (engine.c lines 93-114): |num(ϙ)| magnitude gate. -/
def apply_koppa_gate (config : Config) (state : TRTSState)
    (base_mode : EngineTrackMode) : EngineTrackMode :=
  if !config.enable_koppa_gated_engine then base_mode
  else
    let magnitude := rational_abs_num state.koppa
    if magnitude < 10 then EngineTrackMode.SLIDE
    else if magnitude < 100 then EngineTrackMode.MULTI
    else EngineTrackMode.ADD

/-- `apply_track_mode` (engine.c lines 116-143): one track computation;
`none` is the failure of SLIDE on a zero-numerator ϙ. -/
def apply_track_mode (mode : EngineTrackMode) (current counterpart koppa : TRat) :
    Option TRat :=
  match mode with
  | EngineTrackMode.ADD =>
      some (rational_add (rational_add current counterpart) koppa)
  | EngineTrackMode.MULTI =>
      some (rational_mul current (rational_add counterpart koppa))
  | EngineTrackMode.SLIDE =>
      if rational_is_zero koppa then none
      else some (rational_div (rational_add current counterpart) koppa)

/-- `apply_sign_flip` (engine.c lines 145-174): returns the possibly negated
pair together with the new `sign_flip_polarity`. -/
def apply_sign_flip (config : Config) (polarity : Bool) (upsilon beta : TRat) :
    TRat × TRat × Bool :=
  if !config.enable_sign_flip || config.sign_flip_mode == SignFlipMode.NONE then
    (upsilon, beta, false)
  else
    let flip_now :=
      match config.sign_flip_mode with
      | SignFlipMode.ALWAYS => true
      | SignFlipMode.ALTERNATE => !polarity
      | SignFlipMode.NONE => false
    let pair :=
      if flip_now then (rational_negate upsilon, rational_negate beta)
      else (upsilon, beta)
    let polarity' :=
      if config.sign_flip_mode == SignFlipMode.ALWAYS then true
      else if config.sign_flip_mode == SignFlipMode.ALTERNATE then flip_now
      else polarity
    (pair.1, pair.2, polarity')

/-- `update_triangle` (engine.c lines 176-198): ε-φ triangle ratios, 0/1 on a
zero divisor. -/
def update_triangle (config : Config) (state : TRTSState) : TRTSState :=
  if !config.enable_epsilon_phi_triangle then state
  else
    let t1 :=
      if !rational_is_zero state.epsilon then rational_div state.phi state.epsilon
      else rational_set_si 0 1
    let t2 :=
      if !rational_is_zero state.phi then rational_div state.previous_upsilon state.phi
      else rational_set_si 0 1
    let t3 :=
      if !rational_is_zero state.previous_upsilon then
        rational_div state.epsilon state.previous_upsilon
      else rational_set_si 0 1
    { state with
        triangle_phi_over_epsilon := t1
        triangle_prev_over_phi := t2
        triangle_epsilon_over_prev := t3 }

/-- `apply_delta_cross` (engine.c lines 200-213): delta-cross propagation
post-adjustment of the candidate (υ, β). -/
def apply_delta_cross (config : Config) (state : TRTSState)
    (new_upsilon new_beta : TRat) : TRat × TRat :=
  if !config.enable_delta_cross_propagation then (new_upsilon, new_beta)
  else
    let u := rational_add new_upsilon state.delta_beta
    let b := rational_add new_beta state.delta_upsilon
    if config.enable_delta_koppa_offset then
      (rational_add u state.koppa, rational_add b state.koppa)
    else (u, b)

/-- `apply_modular_wrap` (engine.c lines 215-229): ϙ ← ϙ mod β when
|num(ϙ)| exceeds the wrap threshold (no-op on a zero-numerator β, per the
spec's resolution of the missing `rational_mod` behaviour). -/
def apply_modular_wrap (config : Config) (state : TRTSState) : TRTSState :=
  if !config.enable_modular_wrap then state
  else if rational_abs_num state.koppa > config.koppa_wrap_threshold then
    { state with koppa := rational_mod state.koppa state.beta }
  else state

/-- The track-mode selection pipeline of `engine_step` (engine.c lines
241-249): base modes from dual-track or engine_mode, then the asymmetric
cascade, stack-depth and ϙ-magnitude overrides. -/
def engine_mode_pipeline (config : Config) (state : TRTSState)
    (microtick : Nat) : EngineTrackMode × EngineTrackMode :=
  let ups_mode0 :=
    if config.dual_track_mode then config.engine_upsilon
    else convert_engine_mode config.engine_mode
  let beta_mode0 :=
    if config.dual_track_mode then config.engine_beta else ups_mode0
  let modes1 := apply_asymmetric_modes config microtick ups_mode0 beta_mode0
  let ups_mode1 := apply_stack_depth_mode config state modes1.1
  let beta_mode1 := apply_stack_depth_mode config state modes1.2
  (apply_koppa_gate config state ups_mode1,
   apply_koppa_gate config state beta_mode1)

/-- The unconditional δ recomputation of `engine_step` (engine.c lines
260-261): δυ ← υ − previous_υ, δβ ← β − previous_β, performed before the
track computation and therefore also on failing steps. -/
def engine_delta_state (state : TRTSState) : TRTSState :=
  { state with
      delta_upsilon := rational_delta state.upsilon state.previous_upsilon
      delta_beta := rational_delta state.beta state.previous_beta }

/-- One track's candidate value (engine.c lines 263-272): the delta-add sum
when engine_mode = DELTA_ADD without dual-track, else the selected track
mode (which can fail). -/
def engine_track_result (use_delta_add : Bool) (mode : EngineTrackMode)
    (current counterpart koppa delta : TRat) : Option TRat :=
  if use_delta_add then some (rational_add current delta)
  else apply_track_mode mode current counterpart koppa

/-- The committed state of a successful `engine_step` (engine.c lines
280-287): new (υ, β), dual-track marker, δ recomputed against the pre-step
values, previous ← pre-step values. -/
def engine_success_state (config : Config) (s4 : TRTSState)
    (new_upsilon new_beta ups_before beta_before : TRat) : TRTSState :=
  { s4 with
      upsilon := new_upsilon
      beta := new_beta
      dual_engine_last_step := config.dual_track_mode
      delta_upsilon := rational_delta new_upsilon ups_before
      delta_beta := rational_delta new_beta beta_before
      previous_upsilon := ups_before
      previous_beta := beta_before }

/-- The state left by a failed `engine_step` (engine.c lines 288-290): the
candidate (υ, β) is discarded, only dual_engine_last_step is cleared — but
the δ recomputation, triangle update, modular wrap and sign-flip polarity
update it sits on have already happened. -/
def engine_failure_state (s4 : TRTSState) : TRTSState :=
  { s4 with dual_engine_last_step := false }

/-- `engine_step` (engine.c lines 231-298). The globals are accepted (they
are in scope in engine.c) but never read. Returns the success flag and the
post-step state, composed from the pieces above exactly in the C order. -/
def engine_step (globals : EngineGlobals) (config : Config) (state : TRTSState)
    (microtick : Nat) : Bool × TRTSState :=
  let _ := globals
  let modes := engine_mode_pipeline config state microtick
  let use_delta_add :=
    !config.dual_track_mode && config.engine_mode == EngineMode.DELTA_ADD
  let s1 := engine_delta_state state
  let ups_result :=
    engine_track_result use_delta_add modes.1 s1.upsilon s1.beta s1.koppa
      s1.delta_upsilon
  let beta_result :=
    engine_track_result use_delta_add modes.2 s1.beta s1.upsilon s1.koppa
      s1.delta_beta
  let success := ups_result.isSome && beta_result.isSome
  let cand := apply_delta_cross config s1 (ups_result.getD s1.upsilon)
      (beta_result.getD s1.beta)
  let flip := apply_sign_flip config s1.sign_flip_polarity cand.1 cand.2
  let s4 := apply_modular_wrap config
      (update_triangle config { s1 with sign_flip_polarity := flip.2.2 })
  if success then
    (true, engine_success_state config s4 flip.1 flip.2.1 state.upsilon
      state.beta)
  else (false, engine_failure_state s4)

/-- The fixed Fibonacci tick table FIB_TICKS (psi.c lines 109-113). -/
def FIB_TICKS : List Nat :=
  [5, 13, 89, 233, 1597, 4181, 10946, 28657, 75025, 196418, 514229,
   1346269, 3524578, 9227465]

/-- `is_fibonacci_tick` (psi.c lines 115-122). -/
def is_fibonacci_tick (tick : Nat) : Bool := FIB_TICKS.contains tick

/-- `numerator_is_prime` (psi.c lines 124-132): |numerator| ≥ 2 and prime. -/
def numerator_is_prime (value : TRat) : Bool :=
  isPrimeNat (rational_abs_num value)

/-- `standard_psi` (psi.c lines 135-172): raw cross-multiplied two-way
inversion of (υ, β); fails when either numerator is zero. It does not touch
φ or any flag. -/
def standard_psi (state : TRTSState) : Option TRTSState :=
  if rational_is_zero state.upsilon || rational_is_zero state.beta then none
  else
    some { state with
      upsilon := ⟨state.beta.num * state.upsilon.den,
                  state.beta.den * state.upsilon.num⟩
      beta := ⟨state.upsilon.num * state.beta.den,
               state.upsilon.den * state.beta.num⟩ }

/-- `triple_psi` (psi.c lines 175-220): raw cross-multiplied three-way
inversion (υ,β,ϙ) ← components of (β/ϙ, ϙ/υ, ϙ/β); fails when any numerator
is zero. -/
def triple_psi (state : TRTSState) : Option TRTSState :=
  if rational_is_zero state.koppa || rational_is_zero state.upsilon ||
      rational_is_zero state.beta then none
  else
    some { state with
      upsilon := ⟨state.beta.num * state.koppa.den,
                  state.beta.den * state.koppa.num⟩
      beta := ⟨state.koppa.num * state.upsilon.den,
               state.koppa.den * state.upsilon.num⟩
      koppa := ⟨state.koppa.num * state.beta.den,
                state.koppa.den * state.beta.num⟩ }

/-- `psi_strength` (psi.c lines 222-237): number of transform iterations. -/
def psi_strength (config : Config) (state : TRTSState) : Nat :=
  if !config.enable_psi_strength_parameter || !state.rho_pending then 1
  else
    let prime_count :=
      (if numerator_is_prime state.upsilon then 1 else 0) +
      (if numerator_is_prime state.beta then 1 else 0) +
      (if numerator_is_prime state.koppa then 1 else 0)
    if prime_count ≤ 0 then 1 else prime_count

/-- The body of psi_transform's strength loop (psi.c lines 272-309): executes
the indexed iterations in order; `fired` is the result of the most recent
iteration and the loop stops at the first failure. -/
def psiLoop (config : Config) (strength : Nat) :
    List Nat → Bool → TRTSState → Bool × TRTSState
  | [], fired, state => (fired, state)
  | i :: rest, _, state =>
    let request_triple0 := config.triple_psi_mode
    let request_triple1 :=
      if config.enable_conditional_triple_psi &&
          (numerator_is_prime state.upsilon && numerator_is_prime state.beta &&
           numerator_is_prime state.koppa) then true
      else request_triple0
    let request_triple :=
      if 3 ≤ strength && i == strength - 3 then true else request_triple1
    match (if request_triple then triple_psi state else standard_psi state) with
    | some s1 =>
        let s2 := { s1 with
          psi_recent := true
          psi_triple_recent := if request_triple then true else s1.psi_triple_recent
          rho_pending := if i == 0 then false else s1.rho_pending }
        psiLoop config strength rest true s2
    | none => (false, state)

/-- `psi_transform` (psi.c lines 239-312): clears the per-call flags, applies
the ρ/Fibonacci gates of the RHO-gated modes and the `can_fire` condition,
then runs the transform `strength` times. -/
def psi_transform (config : Config) (state : TRTSState) : Bool × TRTSState :=
  let s := { state with
      psi_triple_recent := false
      psi_recent := false
      psi_strength_applied := false }
  if (config.psi_mode == PsiMode.RHO_ONLY ||
      config.psi_mode == PsiMode.MSTEP_RHO) &&
      (!s.rho_pending || !is_fibonacci_tick s.tick) then
    (false, s)
  else if !(s.rho_pending || config.psi_mode == PsiMode.MSTEP) then
    (false, s)
  else
    let strength := psi_strength config s
    let s1 :=
      if 1 < strength then { s with psi_strength_applied := true } else s
    psiLoop config strength (List.range strength) false s1

/-- `koppa_stack_push` (analysis_utils.c lines 545-555): push onto the
bounded stack; at size 4 the oldest entry (index 0) is shifted out. -/
def koppa_stack_push (stack : List TRat) (value : TRat) : List TRat :=
  if stack.length = 4 then stack.drop 1 ++ [value] else stack ++ [value]

/-- `koppa_update_sample` (analysis_utils.c lines 557-572): observational
sampling of the ϙ-stack at microticks 11 and 5. -/
def koppa_update_sample (state : TRTSState) (microtick : Nat)
    (multi_level_active : Bool) : TRTSState :=
  let base := { state with
      koppa_sample_index := (-1 : Int)
      koppa_sample := state.koppa }
  if !multi_level_active then base
  else if microtick = 11 && state.koppa_stack.length > 0 then
    { base with
        koppa_sample := state.koppa_stack.getD 0 (rational_set_si 0 1)
        koppa_sample_index := 0 }
  else if microtick = 5 && state.koppa_stack.length > 2 then
    { base with
        koppa_sample := state.koppa_stack.getD 2 (rational_set_si 0 1)
        koppa_sample_index := 2 }
  else base

/-- `koppa_accrue` (analysis_utils.c lines 574-628, the five-argument final
generation): trigger decision, optional stack push, base reset per
koppa_mode, the always-added (υ + β) term (via mpq_add + mpq_canonicalize),
psi_recent bookkeeping and sample update. -/
def koppa_accrue (config : Config) (state : TRTSState) (psi_fired : Bool)
    (is_memory_step : Bool) (microtick : Nat) : TRTSState :=
  let trigger :=
    match config.koppa_trigger with
    | KoppaTrigger.ON_PSI => psi_fired
    | KoppaTrigger.ON_MU_AFTER_PSI =>
        is_memory_step && !psi_fired && state.psi_recent
    | KoppaTrigger.ON_ALL_MU => is_memory_step
  if !trigger then
    let s1 :=
      if !psi_fired && config.koppa_trigger != KoppaTrigger.ON_ALL_MU then
        { state with psi_recent :=
            state.psi_recent &&
              config.koppa_trigger == KoppaTrigger.ON_MU_AFTER_PSI }
      else state
    koppa_update_sample s1 microtick config.multi_level_koppa
  else
    let s1 :=
      if config.multi_level_koppa then
        { state with koppa_stack := koppa_stack_push state.koppa_stack state.koppa }
      else state
    let base :=
      match config.koppa_mode with
      | KoppaMode.DUMP => rational_set_si 0 1
      | KoppaMode.POP => s1.epsilon
      | KoppaMode.ACCUMULATE => mpq_canonicalize (rational_add s1.koppa s1.epsilon)
    let koppa2 :=
      mpq_canonicalize (rational_add base (rational_add s1.upsilon s1.beta))
    let s2 := { s1 with
        koppa := koppa2
        psi_recent :=
          if config.koppa_trigger == KoppaTrigger.ON_MU_AFTER_PSI then false
          else psi_fired }
    koppa_update_sample s2 microtick config.multi_level_koppa

/-- `mpq_has_pattern_component` (simulate.c lines 113-148): prime components
always; twin-prime, Fibonacci and perfect-power components per the config.
(The twin-prime branch is unreachable: both-prime already returned true.) -/
def mpq_has_pattern_component (config : Config) (value : TRat) : Bool :=
  let num_prime := mpz_is_prime_signed value.num
  let den_prime := mpz_is_prime_signed value.den
  if num_prime || den_prime then true
  else if config.enable_twin_prime_trigger && num_prime && den_prime &&
      ((value.num - value.den == 2) || (value.num - value.den == -2)) then true
  else if config.enable_fibonacci_trigger &&
      (mpz_is_fibonacci value.num || mpz_is_fibonacci value.den) then true
  else if config.enable_perfect_power_trigger &&
      (mpz_is_perfect_power value.num || mpz_is_perfect_power value.den) then
    true
  else false

/-- `ratio_bounds` (simulate.c lines 157-177): built-in window bounds. -/
def ratio_bounds (mode : RatioTriggerMode) : TRat × TRat :=
  match mode with
  | RatioTriggerMode.GOLDEN => (rational_set_si 3 2, rational_set_si 17 10)
  | RatioTriggerMode.SQRT2 => (rational_set_si 13 10, rational_set_si 3 2)
  | RatioTriggerMode.PLASTIC => (rational_set_si 6 5, rational_set_si 7 5)
  | _ => (rational_set_si 0 1, rational_set_si 0 1)

/-- The cross-multiplication comparison performed by `mpq_cmp`:
sign of a.num·b.den − b.num·a.den. (GMP documents mpq_cmp for canonical
operands; the raw υ/β ratio formed here may carry a negative denominator,
and this definition is the cross-product arithmetic applied to the raw
components.) -/
def mpq_cmp_diff (a b : TRat) : Int := a.num * b.den - b.num * a.den

/-- `ratio_in_range` (simulate.c lines 183-213): υ/β strictly inside the
configured window; false on a zero β or NONE mode; CUSTOM uses the config
bounds when `enable_ratio_custom_range` is set. -/
def ratio_in_range (config : Config) (state : TRTSState) : Bool :=
  if config.ratio_trigger_mode == RatioTriggerMode.NONE then false
  else if rational_is_zero state.beta then false
  else
    let ratio := rational_div state.upsilon state.beta
    if config.ratio_trigger_mode == RatioTriggerMode.CUSTOM &&
        config.enable_ratio_custom_range then
      decide (mpq_cmp_diff ratio config.ratio_custom_lower > 0) &&
      decide (mpq_cmp_diff ratio config.ratio_custom_upper < 0)
    else
      let bounds := ratio_bounds config.ratio_trigger_mode
      decide (mpq_cmp_diff ratio bounds.1 > 0) &&
      decide (mpq_cmp_diff ratio bounds.2 < 0)

/-- `ratio_threshold_outside` (simulate.c lines 218-232): |υ/β| < 1/2 or
> 2. The C code takes a transient double snapshot (`mpq_get_d`) of the raw
ratio; it is modelled by the exact comparison on the raw components
(|num|/|den| against 1/2 and 2). -/
def ratio_threshold_outside (config : Config) (state : TRTSState) : Bool :=
  if !config.enable_ratio_threshold_psi then false
  else if rational_is_zero state.beta then false
  else
    let ratio := rational_div state.upsilon state.beta
    decide (2 * ratio.num.natAbs < ratio.den.natAbs) ||
    decide (ratio.num.natAbs > 2 * ratio.den.natAbs)

/-- `should_fire_psi` (simulate.c lines 237-253). -/
def should_fire_psi (config : Config) (state : TRTSState)
    (is_memory_step allow_stack : Bool) : Bool :=
  if !is_memory_step || !allow_stack then false
  else
    match config.psi_mode with
    | PsiMode.MSTEP => true
    | PsiMode.RHO_ONLY => state.rho_pending
    | PsiMode.MSTEP_RHO => true
    | PsiMode.INHIBIT_RHO => !state.rho_pending

/-- `stack_allows_psi` (simulate.c lines 257-262). -/
def stack_allows_psi (config : Config) (state : TRTSState) : Bool :=
  if !config.enable_stack_depth_modes then true
  else state.koppa_stack.length == 2 || state.koppa_stack.length == 4

/-- Phase of a microtick (simulate.c lines 341-357). -/
inductive Phase
  | E
  | M
  | R
deriving DecidableEq, Repr

/-- E at mt ∈ {1,4,7,10}, M at mt ∈ {2,5,8,11}, R otherwise. -/
def phase_for_microtick (microtick : Nat) : Phase :=
  if microtick = 1 || microtick = 4 || microtick = 7 || microtick = 10 then
    Phase.E
  else if microtick = 2 || microtick = 5 || microtick = 8 || microtick = 11 then
    Phase.M
  else Phase.R

/-- One emitted observation (the observer callback arguments plus the CSV
flag set, simulate.c lines 310-327 and 436-438). The full post-phase state
is recorded. -/
structure Observation where
  tick : Nat
  microtick : Nat
  phase : Phase
  state : TRTSState
  rho_event : Bool
  psi_fired : Bool
  mu_zero : Bool
  forced_emission : Bool
deriving DecidableEq, Repr

/-- The per-microtick flag clearing at the top of the loop body
(simulate.c lines 363-369). -/
def clear_microtick_flags (state : TRTSState) : TRTSState :=
  { state with
      ratio_triggered_recent := false
      psi_triple_recent := false
      dual_engine_last_step := false
      koppa_sample_index := (-1 : Int)
      koppa_sample := state.koppa
      ratio_threshold_recent := false
      psi_strength_applied := false }

/-- The E-phase body (simulate.c lines 371-400): ε snapshot, engine step
(whose failure is deliberately ignored), ρ detection on the configured prime
target, and the microtick-10 forced-emission / forced-ψ latching. Returns
(state, rho_event, forced_emission). -/
def e_phase (globals : EngineGlobals) (config : Config) (state : TRTSState)
    (microtick : Nat) : TRTSState × Bool × Bool :=
  let s1 := { state with epsilon := state.upsilon }
  let s2 := (engine_step globals config s1 microtick).2
  let prime_target :=
    if config.prime_target == PrimeTarget.PRIME_ON_MEMORY then s2.epsilon
    else s2.upsilon
  let detected := mpq_has_pattern_component config prime_target
  let s3 :=
    if detected then { s2 with rho_pending := true, rho_latched := true }
    else { s2 with rho_pending := false, rho_latched := false }
  if microtick = 10 then
    let prime_target10 :=
      if config.prime_target == PrimeTarget.PRIME_ON_MEMORY then s3.epsilon
      else s3.upsilon
    let prime_event := mpq_has_pattern_component config prime_target10
    let s4 :=
      if prime_event || config.mt10_behavior == Mt10Behavior.FORCED_PSI then
        { s3 with rho_pending := true, rho_latched := true }
      else s3
    (s4, detected, true)
  else (s3, detected, false)

/-- The M-phase body (simulate.c lines 402-425): μ-zero flag, stack gate,
ψ request per mode plus the two ratio force conditions, the ψ call, ϙ
accrual and the ρ-latch clear. Returns (state, psi_fired, mu_zero). -/
def m_phase (config : Config) (state : TRTSState) (microtick : Nat) :
    TRTSState × Bool × Bool :=
  let mu_zero := rational_is_zero state.beta
  let allow_stack := stack_allows_psi config state
  let request0 := should_fire_psi config state true allow_stack
  let ratio_triggered := ratio_in_range config state
  let request1 := request0 || ratio_triggered
  let ratio_threshold := ratio_threshold_outside config state
  let request := request1 || ratio_threshold
  let s1 :=
    if ratio_threshold then { state with ratio_threshold_recent := true }
    else state
  let fired_state :=
    if request && allow_stack then psi_transform config s1
    else (false, { s1 with psi_recent := false })
  let s3 := { fired_state.2 with ratio_triggered_recent := ratio_triggered }
  let s4 := koppa_accrue config s3 fired_state.1 true microtick
  ({ s4 with rho_latched := false }, fired_state.1, mu_zero)

/-- The R-phase body (simulate.c lines 427-433): ϙ accrual without ψ and the
recency clears. -/
def r_phase (config : Config) (state : TRTSState) (microtick : Nat) :
    TRTSState :=
  let s1 := koppa_accrue config state false false microtick
  { s1 with psi_recent := false, rho_latched := false }

/-- One microtick of the loop body (simulate.c lines 339-438): flag
clearing, phase dispatch and the emitted observation. The `tick` argument
is written into the state for the Fibonacci gate (modelled from the spec:
src carries no surviving assignment of `state->tick`). -/
def microtick_step (globals : EngineGlobals) (config : Config)
    (tick microtick : Nat) (state : TRTSState) : TRTSState × Observation :=
  let s0 := { clear_microtick_flags state with tick := tick }
  match phase_for_microtick microtick with
  | Phase.E =>
      let r := e_phase globals config s0 microtick
      (r.1, ⟨tick, microtick, Phase.E, r.1, r.2.1, false, false, r.2.2⟩)
  | Phase.M =>
      let r := m_phase config s0 microtick
      (r.1, ⟨tick, microtick, Phase.M, r.1, false, r.2.1, r.2.2, false⟩)
  | Phase.R =>
      let s1 := r_phase config s0 microtick
      (s1, ⟨tick, microtick, Phase.R, s1, false, false, false, false⟩)

/-- The (tick, microtick) schedule of a run: ticks 1..T, microticks 1..11. -/
def schedule : Nat → List (Nat × Nat)
  | 0 => []
  | t + 1 => schedule t ++ (List.range 11).map (fun m => (t + 1, m + 1))

/-- Driving the loop body over a list of (tick, microtick) pairs, collecting
the emitted observations in order. -/
def run_steps (globals : EngineGlobals) (config : Config) :
    List (Nat × Nat) → TRTSState → TRTSState × List Observation
  | [], state => (state, [])
  | p :: rest, state =>
    let r := microtick_step globals config p.1 p.2 state
    let q := run_steps globals config rest r.1
    (q.1, r.2 :: q.2)

/-- `run_simulation` (simulate.c lines 333-442): fresh state from the
config, the full tick × microtick loop, one observation per microtick. -/
def run_simulation (globals : EngineGlobals) (config : Config) :
    List Observation :=
  (run_steps globals config (schedule config.ticks) (state_reset config)).2

/-- `simulate_stream` (simulate.c lines 481-483): the streaming entry point
runs the same loop with no file output; the observer receives exactly the
observation sequence. -/
def simulate_stream (globals : EngineGlobals) (config : Config) :
    List Observation :=
  run_simulation globals config

/-- A concrete instance of the dead engine globals. -/
def g0 : EngineGlobals := ⟨0, 0, 0⟩

/-- A plain configuration: ADD engine, MSTEP ψ, DUMP ϙ on ψ, every optional
feature off, one tick, seeds υ=3/5, β=5/7, ϙ=1/1 (the spec's scenario 1). -/
def baseConfig : Config where
  psi_mode := PsiMode.MSTEP
  koppa_mode := KoppaMode.DUMP
  engine_mode := EngineMode.ADD
  engine_upsilon := EngineTrackMode.ADD
  engine_beta := EngineTrackMode.ADD
  dual_track_mode := false
  triple_psi_mode := false
  multi_level_koppa := false
  koppa_trigger := KoppaTrigger.ON_PSI
  prime_target := PrimeTarget.PRIME_ON_NEW_UPSILON
  mt10_behavior := Mt10Behavior.FORCED_EMISSION_ONLY
  ratio_trigger_mode := RatioTriggerMode.NONE
  ticks := 1
  initial_upsilon := ⟨3, 5⟩
  initial_beta := ⟨5, 7⟩
  initial_koppa := ⟨1, 1⟩
  enable_asymmetric_cascade := false
  enable_conditional_triple_psi := false
  enable_koppa_gated_engine := false
  enable_delta_cross_propagation := false
  enable_delta_koppa_offset := false
  enable_ratio_threshold_psi := false
  enable_stack_depth_modes := false
  enable_epsilon_phi_triangle := false
  enable_sign_flip := false
  enable_modular_wrap := false
  enable_psi_strength_parameter := false
  enable_ratio_snapshot_logging := false
  enable_feedback_oscillator := false
  enable_fibonacci_gate := false
  sign_flip_mode := SignFlipMode.NONE
  koppa_wrap_threshold := 0
  enable_ratio_custom_range := false
  ratio_custom_lower := ⟨0, 1⟩
  ratio_custom_upper := ⟨0, 1⟩
  enable_twin_prime_trigger := false
  enable_fibonacci_trigger := false
  enable_perfect_power_trigger := false

/-- The spec's scenario 2 configuration: SLIDE engine with ϙ = 0/1 (every
engine step fails); RHO_ONLY ψ so nothing fires on tick 1. -/
def slideCfg : Config := { baseConfig with
  engine_mode := EngineMode.SLIDE
  psi_mode := PsiMode.RHO_ONLY
  initial_koppa := ⟨0, 1⟩ }

/-- The freshly reset state of `slideCfg`. -/
def slideState : TRTSState := state_reset slideCfg

/-- A state carrying the ψ boundary example υ = 3/5, β = 5/7 (φ holds the
seed β₀ = 5/7, as `state_reset` leaves it). -/
def exPsiState : TRTSState := state_reset baseConfig

/-- The triple-ψ boundary example υ = 2/3, β = 3/5, ϙ = 5/7. -/
def exTripleState : TRTSState :=
  { state_reset baseConfig with
      upsilon := ⟨2, 3⟩, beta := ⟨3, 5⟩, koppa := ⟨5, 7⟩ }

/-- A state with a negative υ numerator feeding ψ. -/
def negNumState : TRTSState :=
  { state_reset baseConfig with upsilon := ⟨-3, 5⟩ }

/-- A default observation (used as the `getD` fallback in witnesses). -/
def defaultObs : Observation :=
  ⟨0, 0, Phase.R, state_reset baseConfig, false, false, false, false⟩

/-- Seeds of a config have non-zero denominators. -/
def SeedsOk (config : Config) : Prop :=
  config.initial_upsilon.den ≠ 0 ∧ config.initial_beta.den ≠ 0 ∧
  config.initial_koppa.den ≠ 0

/-- Every rational held in a state has a non-zero denominator. -/
def DensOk (s : TRTSState) : Prop :=
  s.upsilon.den ≠ 0 ∧ s.beta.den ≠ 0 ∧ s.koppa.den ≠ 0 ∧ s.epsilon.den ≠ 0 ∧
  s.phi.den ≠ 0 ∧ s.previous_upsilon.den ≠ 0 ∧ s.previous_beta.den ≠ 0 ∧
  s.delta_upsilon.den ≠ 0 ∧ s.delta_beta.den ≠ 0 ∧
  s.triangle_phi_over_epsilon.den ≠ 0 ∧ s.triangle_prev_over_phi.den ≠ 0 ∧
  s.triangle_epsilon_over_prev.den ≠ 0 ∧ s.koppa_sample.den ≠ 0 ∧
  (∀ x ∈ s.koppa_stack, x.den ≠ 0)

/-- υ, β and ϙ all have non-zero numerators and denominators. -/
def NonzeroComponents (s : TRTSState) : Prop :=
  s.upsilon.num ≠ 0 ∧ s.upsilon.den ≠ 0 ∧ s.beta.num ≠ 0 ∧ s.beta.den ≠ 0 ∧
  s.koppa.num ≠ 0 ∧ s.koppa.den ≠ 0

/-- MSTEP_RHO variant of the plain configuration. -/
def mstepRhoCfg : Config := { baseConfig with psi_mode := PsiMode.MSTEP_RHO }

/-- A ρ-latched state at (non-Fibonacci) tick 1. -/
def mrState : TRTSState :=
  { state_reset mstepRhoCfg with rho_pending := true, tick := 1 }

/-- RHO_ONLY variant of the plain configuration. -/
def rhoOnlyCfg : Config := { baseConfig with psi_mode := PsiMode.RHO_ONLY }

/-- A ρ-latched state at (non-Fibonacci) tick 7. -/
def tick7State : TRTSState :=
  { state_reset rhoOnlyCfg with rho_pending := true, tick := 7 }

/-- A ρ-latched state at (Fibonacci) tick 13. -/
def tick13State : TRTSState :=
  { state_reset rhoOnlyCfg with rho_pending := true, tick := 13 }

/-- C1: The rational arithmetic layer of src/rational.c does not satisfy the
no-reduction law: its `rational_add` (mpq_add followed by mpq_canonicalize)
turns 2/4 + 5/7 into the reduced 17/14 instead of the raw 34/28, and its
`rational_set_si` already reduces 2/4 to 1/2 on construction, while the raw
component addition the spec prescribes yields 34/28. -/
theorem C1_rational_layer_reduces :
    rational_add_c ⟨2, 4⟩ ⟨5, 7⟩ = ⟨17, 14⟩ ∧
    rational_add_c ⟨2, 4⟩ ⟨5, 7⟩ ≠ ⟨34, 28⟩ ∧
    rational_set_si_c 2 4 = ⟨1, 2⟩ ∧
    rational_add ⟨2, 4⟩ ⟨5, 7⟩ = ⟨34, 28⟩ := by decide

/-- C2 (amended): the standard two-way ψ, on non-zero υ and β numerators,
replaces υ by the raw components (num(β)·den(υ), den(β)·num(υ)) and β by
(num(υ)·den(β), den(υ)·num(β)), and leaves φ (and every other field)
unchanged — it does not snapshot φ ← υ. -/
theorem C2_standard_psi_components (s : TRTSState)
    (hu : s.upsilon.num ≠ 0) (hb : s.beta.num ≠ 0) :
    standard_psi s = some { s with
      upsilon := ⟨s.beta.num * s.upsilon.den, s.beta.den * s.upsilon.num⟩
      beta := ⟨s.upsilon.num * s.beta.den, s.upsilon.den * s.beta.num⟩ } ∧
    (standard_psi s).map (fun t => t.phi) = some s.phi := by
  have h : standard_psi s = some { s with
      upsilon := ⟨s.beta.num * s.upsilon.den, s.beta.den * s.upsilon.num⟩
      beta := ⟨s.upsilon.num * s.beta.den, s.upsilon.den * s.beta.num⟩ } := by
    unfold standard_psi rational_is_zero
    simp [hu, hb]
  exact ⟨h, by rw [h]; rfl⟩

/-- C2 counterexample: on υ = 3/5, β = 5/7 (φ = 5/7 from the reset), one
standard ψ leaves φ at 5/7; the claimed φ = 3/5 does not hold. -/
theorem C2_standard_psi_phi_cex :
    (standard_psi exPsiState).map (fun t => t.phi) = some ⟨5, 7⟩ ∧
    (standard_psi exPsiState).map (fun t => t.phi) ≠ some ⟨3, 5⟩ := by decide

/-- C2 witness: the amended theorem applied at υ = 3/5, β = 5/7 gives
υ = 25/21 and β = 21/25 with φ untouched. -/
theorem C2_standard_psi_components_witness :
    exPsiState.upsilon.num ≠ 0 ∧
    standard_psi exPsiState = some { exPsiState with
      upsilon := ⟨25, 21⟩, beta := ⟨21, 25⟩ } := by
  refine ⟨by decide, ?_⟩
  have h := (C2_standard_psi_components exPsiState (by decide) (by decide)).1
  exact h

/-- C7: the triple three-way ψ, on non-zero υ, β, ϙ numerators, replaces
(υ, β, ϙ) by the raw cross-multiplied components of (β/ϙ, ϙ/υ, ϙ/β). -/
theorem C7_triple_psi_components (s : TRTSState)
    (hu : s.upsilon.num ≠ 0) (hb : s.beta.num ≠ 0) (hk : s.koppa.num ≠ 0) :
    triple_psi s = some { s with
      upsilon := ⟨s.beta.num * s.koppa.den, s.beta.den * s.koppa.num⟩
      beta := ⟨s.koppa.num * s.upsilon.den, s.koppa.den * s.upsilon.num⟩
      koppa := ⟨s.koppa.num * s.beta.den, s.koppa.den * s.beta.num⟩ } := by
  unfold triple_psi rational_is_zero
  simp [hu, hb, hk]

/-- C7 witness: from υ = 2/3, β = 3/5, ϙ = 5/7 one triple ψ yields
υ = 21/25, β = 15/14, ϙ = 25/21. -/
theorem C7_triple_psi_components_witness :
    exTripleState.upsilon.num ≠ 0 ∧
    triple_psi exTripleState = some { exTripleState with
      upsilon := ⟨21, 25⟩, beta := ⟨15, 14⟩, koppa := ⟨25, 21⟩ } := by
  refine ⟨by decide, ?_⟩
  have h := C7_triple_psi_components exTripleState (by decide) (by decide)
    (by decide)
  exact h

lemma rational_add_den {a b : TRat} (ha : a.den ≠ 0) (hb : b.den ≠ 0) :
    (rational_add a b).den ≠ 0 := mul_ne_zero ha hb

lemma rational_sub_den {a b : TRat} (ha : a.den ≠ 0) (hb : b.den ≠ 0) :
    (rational_sub a b).den ≠ 0 := mul_ne_zero ha hb

lemma rational_mul_den {a b : TRat} (ha : a.den ≠ 0) (hb : b.den ≠ 0) :
    (rational_mul a b).den ≠ 0 := mul_ne_zero ha hb

lemma rational_div_den {a b : TRat} (ha : a.den ≠ 0) (hb : b.num ≠ 0) :
    (rational_div a b).den ≠ 0 := mul_ne_zero ha hb

lemma mpq_canonicalize_den {a : TRat} (h : a.den ≠ 0) :
    (mpq_canonicalize a).den ≠ 0 := by
  unfold mpq_canonicalize
  rw [if_neg h]
  have hdvd : ((Int.gcd a.num a.den : Nat) : Int) ∣ a.den := Int.gcd_dvd_right
  split
  · show -a.den / ((Int.gcd a.num a.den : Nat) : Int) ≠ 0
    intro hz
    have hcancel : -a.den = ((Int.gcd a.num a.den : Nat) : Int) *
        (-a.den / ((Int.gcd a.num a.den : Nat) : Int)) :=
      (Int.mul_ediv_cancel' ((dvd_neg).mpr hdvd)).symm
    rw [hz, mul_zero] at hcancel
    exact h (neg_eq_zero.mp hcancel)
  · show a.den / ((Int.gcd a.num a.den : Nat) : Int) ≠ 0
    intro hz
    have hcancel : a.den = ((Int.gcd a.num a.den : Nat) : Int) *
        (a.den / ((Int.gcd a.num a.den : Nat) : Int)) :=
      (Int.mul_ediv_cancel' hdvd).symm
    rw [hz, mul_zero] at hcancel
    exact h hcancel

lemma rational_mod_den {a b : TRat} (ha : a.den ≠ 0) (hb : b.den ≠ 0) :
    (rational_mod a b).den ≠ 0 := by
  unfold rational_mod
  split
  · exact ha
  · exact mul_ne_zero ha hb

lemma ratVal_add {a b : TRat} (ha : a.den ≠ 0) (hb : b.den ≠ 0) :
    ratVal (rational_add a b) = ratVal a + ratVal b := by
  have ha' : (a.den : Rat) ≠ 0 := Int.cast_ne_zero.mpr ha
  have hb' : (b.den : Rat) ≠ 0 := Int.cast_ne_zero.mpr hb
  unfold ratVal rational_add
  push_cast
  rw [div_add_div _ _ ha' hb']
  ring_nf

lemma int_div_pair_val (n d g : Int) (hg : g ≠ 0) (hn : g ∣ n) (hd : g ∣ d) :
    ((n / g : Int) : Rat) / ((d / g : Int) : Rat) = (n : Rat) / (d : Rat) := by
  obtain ⟨n1, rfl⟩ := hn
  obtain ⟨d1, rfl⟩ := hd
  rw [Int.mul_ediv_cancel_left _ hg, Int.mul_ediv_cancel_left _ hg]
  push_cast
  rw [mul_div_mul_left _ _ (Int.cast_ne_zero.mpr hg)]

lemma ratVal_canon {a : TRat} (h : a.den ≠ 0) :
    ratVal (mpq_canonicalize a) = ratVal a := by
  unfold mpq_canonicalize
  rw [if_neg h]
  have hgz : ((Int.gcd a.num a.den : Nat) : Int) ≠ 0 := by
    intro hc
    have : Int.gcd a.num a.den = 0 := by exact_mod_cast hc
    exact h (Int.gcd_eq_zero_iff.mp this).2
  split
  · show ratVal ⟨-a.num / ((Int.gcd a.num a.den : Nat) : Int),
        -a.den / ((Int.gcd a.num a.den : Nat) : Int)⟩ = ratVal a
    unfold ratVal
    rw [int_div_pair_val _ _ _ hgz ((dvd_neg).mpr Int.gcd_dvd_left)
        ((dvd_neg).mpr Int.gcd_dvd_right)]
    push_cast
    rw [neg_div_neg_eq]
  · show ratVal ⟨a.num / ((Int.gcd a.num a.den : Nat) : Int),
        a.den / ((Int.gcd a.num a.den : Nat) : Int)⟩ = ratVal a
    unfold ratVal
    rw [int_div_pair_val _ _ _ hgz Int.gcd_dvd_left Int.gcd_dvd_right]

lemma update_triangle_fields (config : Config) (s : TRTSState) :
    (update_triangle config s).upsilon = s.upsilon ∧
    (update_triangle config s).beta = s.beta ∧
    (update_triangle config s).koppa = s.koppa ∧
    (update_triangle config s).epsilon = s.epsilon ∧
    (update_triangle config s).phi = s.phi ∧
    (update_triangle config s).previous_upsilon = s.previous_upsilon ∧
    (update_triangle config s).previous_beta = s.previous_beta ∧
    (update_triangle config s).delta_upsilon = s.delta_upsilon ∧
    (update_triangle config s).delta_beta = s.delta_beta ∧
    (update_triangle config s).koppa_stack = s.koppa_stack ∧
    (update_triangle config s).koppa_sample = s.koppa_sample ∧
    (update_triangle config s).rho_pending = s.rho_pending ∧
    (update_triangle config s).rho_latched = s.rho_latched ∧
    (update_triangle config s).psi_recent = s.psi_recent ∧
    (update_triangle config s).sign_flip_polarity = s.sign_flip_polarity ∧
    (update_triangle config s).tick = s.tick := by
  unfold update_triangle
  split <;> simp

lemma apply_modular_wrap_fields (config : Config) (s : TRTSState) :
    (apply_modular_wrap config s).upsilon = s.upsilon ∧
    (apply_modular_wrap config s).beta = s.beta ∧
    (apply_modular_wrap config s).epsilon = s.epsilon ∧
    (apply_modular_wrap config s).phi = s.phi ∧
    (apply_modular_wrap config s).previous_upsilon = s.previous_upsilon ∧
    (apply_modular_wrap config s).previous_beta = s.previous_beta ∧
    (apply_modular_wrap config s).delta_upsilon = s.delta_upsilon ∧
    (apply_modular_wrap config s).delta_beta = s.delta_beta ∧
    (apply_modular_wrap config s).triangle_phi_over_epsilon = s.triangle_phi_over_epsilon ∧
    (apply_modular_wrap config s).triangle_prev_over_phi = s.triangle_prev_over_phi ∧
    (apply_modular_wrap config s).triangle_epsilon_over_prev = s.triangle_epsilon_over_prev ∧
    (apply_modular_wrap config s).koppa_stack = s.koppa_stack ∧
    (apply_modular_wrap config s).koppa_sample = s.koppa_sample ∧
    (apply_modular_wrap config s).rho_pending = s.rho_pending ∧
    (apply_modular_wrap config s).rho_latched = s.rho_latched ∧
    (apply_modular_wrap config s).psi_recent = s.psi_recent ∧
    (apply_modular_wrap config s).sign_flip_polarity = s.sign_flip_polarity ∧
    (apply_modular_wrap config s).tick = s.tick := by
  unfold apply_modular_wrap
  split
  · simp
  · split <;> simp

lemma apply_modular_wrap_koppa (config : Config) (s : TRTSState)
    (h : config.enable_modular_wrap = false) :
    (apply_modular_wrap config s).koppa = s.koppa := by
  unfold apply_modular_wrap
  rw [h]
  simp

lemma apply_modular_wrap_koppa_den (config : Config) (s : TRTSState)
    (hk : s.koppa.den ≠ 0) (hb : s.beta.den ≠ 0) :
    (apply_modular_wrap config s).koppa.den ≠ 0 := by
  unfold apply_modular_wrap
  split
  · exact hk
  · split
    · exact rational_mod_den hk hb
    · exact hk

lemma koppa_update_sample_fields (s : TRTSState) (microtick : Nat) (multi : Bool) :
    (koppa_update_sample s microtick multi).upsilon = s.upsilon ∧
    (koppa_update_sample s microtick multi).beta = s.beta ∧
    (koppa_update_sample s microtick multi).koppa = s.koppa ∧
    (koppa_update_sample s microtick multi).epsilon = s.epsilon ∧
    (koppa_update_sample s microtick multi).phi = s.phi ∧
    (koppa_update_sample s microtick multi).koppa_stack = s.koppa_stack ∧
    (koppa_update_sample s microtick multi).rho_pending = s.rho_pending ∧
    (koppa_update_sample s microtick multi).rho_latched = s.rho_latched ∧
    (koppa_update_sample s microtick multi).psi_recent = s.psi_recent ∧
    (koppa_update_sample s microtick multi).tick = s.tick := by
  unfold koppa_update_sample
  split
  · simp
  · split
    · simp
    · split <;> simp

lemma list_getD_prop {P : TRat → Prop} :
    ∀ (l : List TRat) (i : Nat) (d : TRat), (∀ x ∈ l, P x) → P d →
      P (l.getD i d)
  | [], _, _, _, hd => hd
  | x :: _, 0, _, hl, _ => hl x (List.mem_cons_self _ _)
  | _ :: xs, i + 1, d, hl, hd =>
      list_getD_prop xs i d (fun y hy => hl y (List.mem_cons_of_mem _ hy)) hd

lemma koppa_update_sample_sample_den (s : TRTSState) (microtick : Nat)
    (multi : Bool) (hk : s.koppa.den ≠ 0)
    (hstack : ∀ x ∈ s.koppa_stack, x.den ≠ 0) :
    (koppa_update_sample s microtick multi).koppa_sample.den ≠ 0 := by
  unfold koppa_update_sample
  split
  · exact hk
  · split
    · show (s.koppa_stack.getD 0 (rational_set_si 0 1)).den ≠ 0
      exact list_getD_prop _ _ _ hstack (by decide)
    · split
      · show (s.koppa_stack.getD 2 (rational_set_si 0 1)).den ≠ 0
        exact list_getD_prop _ _ _ hstack (by decide)
      · exact hk

lemma standard_psi_some {s s1 : TRTSState} (h : standard_psi s = some s1) :
    s1.koppa = s.koppa ∧ s1.epsilon = s.epsilon ∧ s1.phi = s.phi ∧
    s1.koppa_stack = s.koppa_stack ∧ s1.koppa_sample = s.koppa_sample ∧
    s1.rho_pending = s.rho_pending ∧ s1.rho_latched = s.rho_latched ∧
    s1.psi_recent = s.psi_recent ∧ s1.tick = s.tick ∧
    s1.upsilon = ⟨s.beta.num * s.upsilon.den, s.beta.den * s.upsilon.num⟩ ∧
    s1.beta = ⟨s.upsilon.num * s.beta.den, s.upsilon.den * s.beta.num⟩ ∧
    s.upsilon.num ≠ 0 ∧ s.beta.num ≠ 0 := by
  unfold standard_psi at h
  by_cases hz : (rational_is_zero s.upsilon || rational_is_zero s.beta) = true
  · rw [if_pos hz] at h
    exact absurd h (by simp)
  · rw [if_neg hz] at h
    have hz' := hz
    simp only [rational_is_zero, Bool.or_eq_true, beq_iff_eq, not_or] at hz'
    cases h
    refine ⟨rfl, rfl, rfl, rfl, rfl, rfl, rfl, rfl, rfl, rfl, rfl, hz'.1, hz'.2⟩

lemma triple_psi_some {s s1 : TRTSState} (h : triple_psi s = some s1) :
    s1.epsilon = s.epsilon ∧ s1.phi = s.phi ∧
    s1.koppa_stack = s.koppa_stack ∧ s1.koppa_sample = s.koppa_sample ∧
    s1.rho_pending = s.rho_pending ∧ s1.rho_latched = s.rho_latched ∧
    s1.psi_recent = s.psi_recent ∧ s1.tick = s.tick ∧
    s1.upsilon = ⟨s.beta.num * s.koppa.den, s.beta.den * s.koppa.num⟩ ∧
    s1.beta = ⟨s.koppa.num * s.upsilon.den, s.koppa.den * s.upsilon.num⟩ ∧
    s1.koppa = ⟨s.koppa.num * s.beta.den, s.koppa.den * s.beta.num⟩ ∧
    s.upsilon.num ≠ 0 ∧ s.beta.num ≠ 0 ∧ s.koppa.num ≠ 0 := by
  unfold triple_psi at h
  by_cases hz : (rational_is_zero s.koppa || rational_is_zero s.upsilon ||
      rational_is_zero s.beta) = true
  · rw [if_pos hz] at h
    exact absurd h (by simp)
  · rw [if_neg hz] at h
    have hz' := hz
    simp only [rational_is_zero, Bool.or_eq_true, beq_iff_eq, not_or] at hz'
    cases h
    exact ⟨rfl, rfl, rfl, rfl, rfl, rfl, rfl, rfl, rfl, rfl, rfl,
      hz'.1.2, hz'.2, hz'.1.1⟩

lemma standard_psi_nonzero {s s1 : TRTSState} (hs : NonzeroComponents s)
    (h : standard_psi s = some s1) : NonzeroComponents s1 := by
  obtain ⟨hun, hud, hbn, hbd, hkn, hkd⟩ := hs
  obtain ⟨hk, -, -, -, -, -, -, -, -, hu, hb, -, -⟩ := standard_psi_some h
  refine ⟨?_, ?_, ?_, ?_, ?_, ?_⟩ <;>
    simp [hk, hu, hb, mul_ne_zero, hun, hud, hbn, hbd, hkn, hkd]

lemma triple_psi_nonzero {s s1 : TRTSState} (hs : NonzeroComponents s)
    (h : triple_psi s = some s1) : NonzeroComponents s1 := by
  obtain ⟨hun, hud, hbn, hbd, hkn, hkd⟩ := hs
  obtain ⟨-, -, -, -, -, -, -, -, hu, hb, hk, -, -, -⟩ := triple_psi_some h
  refine ⟨?_, ?_, ?_, ?_, ?_, ?_⟩ <;>
    simp [hk, hu, hb, mul_ne_zero, hun, hud, hbn, hbd, hkn, hkd]

lemma standard_psi_fires (s : TRTSState) (hs : NonzeroComponents s) :
    ∃ s1, standard_psi s = some s1 := by
  unfold standard_psi
  rw [if_neg]
  · exact ⟨_, rfl⟩
  · simp [rational_is_zero, hs.1, hs.2.2.1]

lemma triple_psi_fires (s : TRTSState) (hs : NonzeroComponents s) :
    ∃ s1, triple_psi s = some s1 := by
  unfold triple_psi
  rw [if_neg]
  · exact ⟨_, rfl⟩
  · simp [rational_is_zero, hs.1, hs.2.2.1, hs.2.2.2.2.1]

lemma standard_psi_eq {s s1 : TRTSState} (h : standard_psi s = some s1) :
    s1 = { s with
      upsilon := ⟨s.beta.num * s.upsilon.den, s.beta.den * s.upsilon.num⟩
      beta := ⟨s.upsilon.num * s.beta.den, s.upsilon.den * s.beta.num⟩ } := by
  unfold standard_psi at h
  by_cases hz : (rational_is_zero s.upsilon || rational_is_zero s.beta) = true
  · rw [if_pos hz] at h
    exact absurd h (by simp)
  · rw [if_neg hz] at h
    cases h
    rfl

lemma triple_psi_eq {s s1 : TRTSState} (h : triple_psi s = some s1) :
    s1 = { s with
      upsilon := ⟨s.beta.num * s.koppa.den, s.beta.den * s.koppa.num⟩
      beta := ⟨s.koppa.num * s.upsilon.den, s.koppa.den * s.upsilon.num⟩
      koppa := ⟨s.koppa.num * s.beta.den, s.koppa.den * s.beta.num⟩ } := by
  unfold triple_psi at h
  by_cases hz : (rational_is_zero s.koppa || rational_is_zero s.upsilon ||
      rational_is_zero s.beta) = true
  · rw [if_pos hz] at h
    exact absurd h (by simp)
  · rw [if_neg hz] at h
    cases h
    rfl

lemma standard_psi_densOk {s s1 : TRTSState} (hd : DensOk s)
    (h : standard_psi s = some s1) : DensOk s1 := by
  obtain ⟨-, -, -, -, -, -, -, -, -, -, -, hun, hbn⟩ := standard_psi_some h
  rw [standard_psi_eq h]
  obtain ⟨h1, h2, h3, h4, h5, h6, h7, h8, h9, h10, h11, h12, h13, h14⟩ := hd
  exact ⟨mul_ne_zero h2 hun, mul_ne_zero h1 hbn, h3, h4, h5, h6, h7, h8, h9,
    h10, h11, h12, h13, h14⟩

lemma triple_psi_densOk {s s1 : TRTSState} (hd : DensOk s)
    (h : triple_psi s = some s1) : DensOk s1 := by
  obtain ⟨-, -, -, -, -, -, -, -, -, -, -, hun, hbn, hkn⟩ := triple_psi_some h
  rw [triple_psi_eq h]
  obtain ⟨h1, h2, h3, h4, h5, h6, h7, h8, h9, h10, h11, h12, h13, h14⟩ := hd
  exact ⟨mul_ne_zero h2 hkn, mul_ne_zero h3 hun, mul_ne_zero h3 hbn, h4, h5,
    h6, h7, h8, h9, h10, h11, h12, h13, h14⟩

lemma psi_step_eq {c : Bool} {s s1 : TRTSState}
    (h : (if c = true then triple_psi s else standard_psi s) = some s1) :
    s1.koppa_stack = s.koppa_stack ∧ s1.tick = s.tick ∧
    s1.epsilon = s.epsilon ∧ s1.phi = s.phi ∧
    (DensOk s → DensOk s1) ∧
    (NonzeroComponents s → NonzeroComponents s1) := by
  cases c with
  | false =>
    simp only [if_neg (by simp : ¬((false : Bool) = true))] at h
    obtain ⟨-, he, hp, hst, -, -, -, -, ht, -, -, -, -⟩ := standard_psi_some h
    exact ⟨hst, ht, he, hp, fun hd => standard_psi_densOk hd h,
      fun hn => standard_psi_nonzero hn h⟩
  | true =>
    simp only [if_pos rfl] at h
    obtain ⟨he, hp, hst, -, -, -, -, ht, -, -, -, -, -, -⟩ := triple_psi_some h
    exact ⟨hst, ht, he, hp, fun hd => triple_psi_densOk hd h,
      fun hn => triple_psi_nonzero hn h⟩

lemma psiLoop_stack (config : Config) (strength : Nat) :
    ∀ (idxs : List Nat) (fired : Bool) (s : TRTSState),
      (psiLoop config strength idxs fired s).2.koppa_stack = s.koppa_stack ∧
      (psiLoop config strength idxs fired s).2.tick = s.tick := by
  intro idxs
  induction idxs with
  | nil => intro fired s; exact ⟨rfl, rfl⟩
  | cons i rest ih =>
    intro fired s
    simp only [psiLoop]
    split
    · rename_i s1 heq
      exact ⟨((ih true _).1).trans (psi_step_eq heq).1,
        ((ih true _).2).trans (psi_step_eq heq).2.1⟩
    · exact ⟨rfl, rfl⟩

lemma psi_step_fires {c : Bool} (s : TRTSState) (hn : NonzeroComponents s) :
    ∃ s1, (if c = true then triple_psi s else standard_psi s) = some s1 := by
  cases c with
  | false =>
    simp only [if_neg (by simp : ¬((false : Bool) = true))]
    exact standard_psi_fires s hn
  | true =>
    simp only [if_pos rfl]
    exact triple_psi_fires s hn

lemma psiLoop_densOk (config : Config) (strength : Nat) :
    ∀ (idxs : List Nat) (fired : Bool) (s : TRTSState), DensOk s →
      DensOk (psiLoop config strength idxs fired s).2 := by
  intro idxs
  induction idxs with
  | nil => intro fired s hd; exact hd
  | cons i rest ih =>
    intro fired s hd
    simp only [psiLoop]
    split
    · rename_i s1 heq
      exact ih true _ ((psi_step_eq heq).2.2.2.2.1 hd)
    · exact hd

lemma psiLoop_fires (config : Config) (strength : Nat) :
    ∀ (idxs : List Nat) (fired : Bool) (s : TRTSState),
      NonzeroComponents s → idxs ≠ [] →
      (psiLoop config strength idxs fired s).1 = true := by
  intro idxs
  induction idxs with
  | nil => intro fired s _ hne; exact absurd rfl hne
  | cons i rest ih =>
    intro fired s hn _
    simp only [psiLoop]
    split
    · rename_i s1 heq
      cases rest with
      | nil => rfl
      | cons j js =>
        exact ih true _ ((psi_step_eq heq).2.2.2.2.2 hn) (by simp)
    · rename_i heq
      obtain ⟨s1, hs1⟩ := psi_step_fires s hn
      rw [heq] at hs1
      exact absurd hs1 (by simp)

lemma psi_strength_pos (config : Config) (s : TRTSState) :
    1 ≤ psi_strength config s := by
  unfold psi_strength
  dsimp only
  split_ifs <;> omega

lemma psi_transform_stack (config : Config) (s : TRTSState) :
    (psi_transform config s).2.koppa_stack = s.koppa_stack ∧
    (psi_transform config s).2.tick = s.tick := by
  constructor
  · unfold psi_transform
    dsimp only
    split
    · rfl
    · split
      · rfl
      · refine ((psiLoop_stack _ _ _ _ _).1).trans ?_
        split <;> rfl
  · unfold psi_transform
    dsimp only
    split
    · rfl
    · split
      · rfl
      · refine ((psiLoop_stack _ _ _ _ _).2).trans ?_
        split <;> rfl

lemma psi_transform_densOk (config : Config) (s : TRTSState) (hd : DensOk s) :
    DensOk (psi_transform config s).2 := by
  unfold psi_transform
  dsimp only
  split
  · exact hd
  · split
    · exact hd
    · apply psiLoop_densOk
      split
      · exact hd
      · exact hd

lemma psi_transform_gate (config : Config) (s : TRTSState)
    (hm : config.psi_mode = PsiMode.RHO_ONLY ∨ config.psi_mode = PsiMode.MSTEP_RHO)
    (hf : (psi_transform config s).1 = true) :
    s.rho_pending = true ∧ is_fibonacci_tick s.tick = true := by
  have hgated : (config.psi_mode == PsiMode.RHO_ONLY ||
      config.psi_mode == PsiMode.MSTEP_RHO) = true := by
    rcases hm with h | h <;> simp [h]
  unfold psi_transform at hf
  dsimp only at hf
  split at hf
  · exact absurd hf (by simp)
  · rename_i hcond
    rw [hgated] at hcond
    simp only [Bool.true_and, Bool.or_eq_true, Bool.not_eq_true',
      Bool.not_eq_false] at hcond
    push_neg at hcond
    exact ⟨by simpa using hcond.1, by simpa using hcond.2⟩

lemma psi_transform_fired_iff (config : Config) (s : TRTSState)
    (hn : NonzeroComponents s) :
    (psi_transform config s).1 =
      (!((config.psi_mode == PsiMode.RHO_ONLY ||
          config.psi_mode == PsiMode.MSTEP_RHO) &&
         (!s.rho_pending || !is_fibonacci_tick s.tick)) &&
       (s.rho_pending || config.psi_mode == PsiMode.MSTEP)) := by
  unfold psi_transform
  dsimp only
  split
  · rename_i hcond
    rw [show ((config.psi_mode == PsiMode.RHO_ONLY ||
        config.psi_mode == PsiMode.MSTEP_RHO) &&
        (!s.rho_pending || !is_fibonacci_tick s.tick)) = true from hcond]
    simp
  · rename_i hcond
    split
    · rename_i hcan
      have h2 : (s.rho_pending || config.psi_mode == PsiMode.MSTEP) = false := by
        simpa using hcan
      rw [h2]
      simp
    · rename_i hcan
      have h1 : ((config.psi_mode == PsiMode.RHO_ONLY ||
          config.psi_mode == PsiMode.MSTEP_RHO) &&
          (!s.rho_pending || !is_fibonacci_tick s.tick)) = false := by
        simpa using hcond
      have h2 : (s.rho_pending || config.psi_mode == PsiMode.MSTEP) = true := by
        rcases Bool.eq_false_or_eq_true
            (s.rho_pending || config.psi_mode == PsiMode.MSTEP) with h | h
        · exact h
        · exact absurd (by rw [h]; rfl) hcan
      rw [h1, h2]
      simp only [Bool.not_false, Bool.and_true]
      split
      · refine psiLoop_fires _ _ _ _ _ ?_ ?_
        · exact hn
        · intro hnil
          rw [List.range_eq_nil] at hnil
          have hpos := psi_strength_pos config
            { s with
              psi_triple_recent := false
              psi_recent := false
              psi_strength_applied := false }
          omega
      · refine psiLoop_fires _ _ _ _ _ ?_ ?_
        · exact hn
        · intro hnil
          rw [List.range_eq_nil] at hnil
          have hpos := psi_strength_pos config
            { s with
              psi_triple_recent := false
              psi_recent := false
              psi_strength_applied := false }
          omega

lemma koppa_update_sample_densOk (s : TRTSState) (microtick : Nat)
    (multi : Bool) (hd : DensOk s) : DensOk (koppa_update_sample s microtick multi) := by
  obtain ⟨h1, h2, h3, h4, h5, h6, h7, h8, h9, h10, h11, h12, h13, h14⟩ := hd
  unfold koppa_update_sample
  dsimp only
  split
  · exact ⟨h1, h2, h3, h4, h5, h6, h7, h8, h9, h10, h11, h12, h3, h14⟩
  · split
    · exact ⟨h1, h2, h3, h4, h5, h6, h7, h8, h9, h10, h11, h12,
        list_getD_prop _ _ _ h14 (by decide), h14⟩
    · split
      · exact ⟨h1, h2, h3, h4, h5, h6, h7, h8, h9, h10, h11, h12,
          list_getD_prop _ _ _ h14 (by decide), h14⟩
      · exact ⟨h1, h2, h3, h4, h5, h6, h7, h8, h9, h10, h11, h12, h3, h14⟩

lemma koppa_stack_push_densOk {stack : List TRat} {v : TRat}
    (hs : ∀ x ∈ stack, x.den ≠ 0) (hv : v.den ≠ 0) :
    ∀ x ∈ koppa_stack_push stack v, x.den ≠ 0 := by
  unfold koppa_stack_push
  split <;> intro x hx
  · rcases List.mem_append.mp hx with h | h
    · exact hs x (List.mem_of_mem_drop h)
    · rw [List.mem_singleton.mp h]; exact hv
  · rcases List.mem_append.mp hx with h | h
    · exact hs x h
    · rw [List.mem_singleton.mp h]; exact hv

lemma koppa_accrue_densOk (config : Config) (s : TRTSState)
    (psi_fired is_memory : Bool) (microtick : Nat) (hd : DensOk s) :
    DensOk (koppa_accrue config s psi_fired is_memory microtick) := by
  unfold koppa_accrue
  dsimp only
  obtain ⟨h1, h2, h3, h4, h5, h6, h7, h8, h9, h10, h11, h12, h13, h14⟩ := hd
  split
  · split
    · exact koppa_update_sample_densOk _ _ _
        ⟨h1, h2, h3, h4, h5, h6, h7, h8, h9, h10, h11, h12, h13, h14⟩
    · exact koppa_update_sample_densOk _ _ _
        ⟨h1, h2, h3, h4, h5, h6, h7, h8, h9, h10, h11, h12, h13, h14⟩
  · apply koppa_update_sample_densOk
    split
    · cases config.koppa_mode with
      | DUMP =>
        dsimp only
        refine ⟨h1, h2, ?_, h4, h5, h6, h7, h8, h9, h10, h11, h12, h13,
          koppa_stack_push_densOk h14 h3⟩
        exact mpq_canonicalize_den (rational_add_den one_ne_zero
          (rational_add_den h1 h2))
      | POP =>
        dsimp only
        refine ⟨h1, h2, ?_, h4, h5, h6, h7, h8, h9, h10, h11, h12, h13,
          koppa_stack_push_densOk h14 h3⟩
        exact mpq_canonicalize_den (rational_add_den h4
          (rational_add_den h1 h2))
      | ACCUMULATE =>
        dsimp only
        refine ⟨h1, h2, ?_, h4, h5, h6, h7, h8, h9, h10, h11, h12, h13,
          koppa_stack_push_densOk h14 h3⟩
        exact mpq_canonicalize_den (rational_add_den
          (mpq_canonicalize_den (rational_add_den h3 h4))
          (rational_add_den h1 h2))
    · cases config.koppa_mode with
      | DUMP =>
        dsimp only
        refine ⟨h1, h2, ?_, h4, h5, h6, h7, h8, h9, h10, h11, h12, h13, h14⟩
        exact mpq_canonicalize_den (rational_add_den one_ne_zero
          (rational_add_den h1 h2))
      | POP =>
        dsimp only
        refine ⟨h1, h2, ?_, h4, h5, h6, h7, h8, h9, h10, h11, h12, h13, h14⟩
        exact mpq_canonicalize_den (rational_add_den h4
          (rational_add_den h1 h2))
      | ACCUMULATE =>
        dsimp only
        refine ⟨h1, h2, ?_, h4, h5, h6, h7, h8, h9, h10, h11, h12, h13, h14⟩
        exact mpq_canonicalize_den (rational_add_den
          (mpq_canonicalize_den (rational_add_den h3 h4))
          (rational_add_den h1 h2))

lemma koppa_accrue_stack (config : Config) (s : TRTSState)
    (psi_fired is_memory : Bool) (microtick : Nat)
    (h : config.multi_level_koppa = false) :
    (koppa_accrue config s psi_fired is_memory microtick).koppa_stack =
      s.koppa_stack := by
  unfold koppa_accrue
  dsimp only
  split
  · split
    · exact (koppa_update_sample_fields _ _ _).2.2.2.2.2.1
    · exact (koppa_update_sample_fields _ _ _).2.2.2.2.2.1
  · split
    · rename_i hmulti
      rw [h] at hmulti
      exact (Bool.false_ne_true hmulti).elim
    · exact (koppa_update_sample_fields _ _ _).2.2.2.2.2.1

lemma apply_track_mode_den {mode : EngineTrackMode} {cur cp k r : TRat}
    (hc : cur.den ≠ 0) (hp : cp.den ≠ 0) (hk : k.den ≠ 0)
    (h : apply_track_mode mode cur cp k = some r) : r.den ≠ 0 := by
  unfold apply_track_mode at h
  split at h
  · cases h
    exact rational_add_den (rational_add_den hc hp) hk
  · cases h
    exact rational_mul_den hc (rational_add_den hp hk)
  · split at h
    · exact absurd h (by simp)
    · rename_i hz
      cases h
      exact rational_div_den (rational_add_den hc hp)
        (by simpa [rational_is_zero] using hz)

lemma apply_delta_cross_den {config : Config} {s : TRTSState} {u b : TRat}
    (hu : u.den ≠ 0) (hb : b.den ≠ 0) (hdu : s.delta_upsilon.den ≠ 0)
    (hdb : s.delta_beta.den ≠ 0) (hk : s.koppa.den ≠ 0) :
    (apply_delta_cross config s u b).1.den ≠ 0 ∧
    (apply_delta_cross config s u b).2.den ≠ 0 := by
  unfold apply_delta_cross
  split
  · exact ⟨hu, hb⟩
  · dsimp only
    split
    · exact ⟨rational_add_den (rational_add_den hu hdb) hk,
        rational_add_den (rational_add_den hb hdu) hk⟩
    · exact ⟨rational_add_den hu hdb, rational_add_den hb hdu⟩

lemma apply_sign_flip_den {config : Config} {polarity : Bool} {u b : TRat}
    (hu : u.den ≠ 0) (hb : b.den ≠ 0) :
    (apply_sign_flip config polarity u b).1.den ≠ 0 ∧
    (apply_sign_flip config polarity u b).2.1.den ≠ 0 := by
  unfold apply_sign_flip
  split
  · exact ⟨hu, hb⟩
  · dsimp only
    split
    · exact ⟨hu, hb⟩
    · exact ⟨hu, hb⟩

lemma update_triangle_densOk (config : Config) (s : TRTSState)
    (hd : DensOk s) : DensOk (update_triangle config s) := by
  obtain ⟨h1, h2, h3, h4, h5, h6, h7, h8, h9, h10, h11, h12, h13, h14⟩ := hd
  unfold update_triangle
  split
  · exact ⟨h1, h2, h3, h4, h5, h6, h7, h8, h9, h10, h11, h12, h13, h14⟩
  · dsimp only
    have ht1 : (if (!rational_is_zero s.epsilon) = true then
        rational_div s.phi s.epsilon else rational_set_si 0 1).den ≠ 0 := by
      split
      · rename_i hz
        exact rational_div_den h5 (by simpa [rational_is_zero] using hz)
      · exact one_ne_zero
    have ht2 : (if (!rational_is_zero s.phi) = true then
        rational_div s.previous_upsilon s.phi else rational_set_si 0 1).den ≠ 0 := by
      split
      · rename_i hz
        exact rational_div_den h6 (by simpa [rational_is_zero] using hz)
      · exact one_ne_zero
    have ht3 : (if (!rational_is_zero s.previous_upsilon) = true then
        rational_div s.epsilon s.previous_upsilon else rational_set_si 0 1).den ≠ 0 := by
      split
      · rename_i hz
        exact rational_div_den h4 (by simpa [rational_is_zero] using hz)
      · exact one_ne_zero
    exact ⟨h1, h2, h3, h4, h5, h6, h7, h8, h9, ht1, ht2, ht3, h13, h14⟩

lemma apply_modular_wrap_densOk (config : Config) (s : TRTSState)
    (hd : DensOk s) : DensOk (apply_modular_wrap config s) := by
  obtain ⟨h1, h2, h3, h4, h5, h6, h7, h8, h9, h10, h11, h12, h13, h14⟩ := hd
  unfold apply_modular_wrap
  split
  · exact ⟨h1, h2, h3, h4, h5, h6, h7, h8, h9, h10, h11, h12, h13, h14⟩
  · split
    · exact ⟨h1, h2, rational_mod_den h3 h2, h4, h5, h6, h7, h8, h9, h10,
        h11, h12, h13, h14⟩
    · exact ⟨h1, h2, h3, h4, h5, h6, h7, h8, h9, h10, h11, h12, h13, h14⟩

lemma option_getD_den {o : Option TRat} {d : TRat} (hd : d.den ≠ 0)
    (ho : ∀ r, o = some r → r.den ≠ 0) : (o.getD d).den ≠ 0 := by
  cases o with
  | none => exact hd
  | some r => exact ho r rfl

lemma if_track_den {c : Bool} {X : TRat} {mode : EngineTrackMode}
    {cur cp k : TRat} (hX : X.den ≠ 0) (hc : cur.den ≠ 0) (hp : cp.den ≠ 0)
    (hk : k.den ≠ 0) :
    ∀ r, (if c = true then some X else apply_track_mode mode cur cp k) =
      some r → r.den ≠ 0 := by
  intro r h
  split at h
  · cases h
    exact hX
  · exact apply_track_mode_den hc hp hk h


lemma engine_delta_state_densOk {s : TRTSState} (hd : DensOk s) :
    DensOk (engine_delta_state s) := by
  obtain ⟨h1, h2, h3, h4, h5, h6, h7, h8, h9, h10, h11, h12, h13, h14⟩ := hd
  exact ⟨h1, h2, h3, h4, h5, h6, h7, rational_sub_den h1 h6,
    rational_sub_den h2 h7, h10, h11, h12, h13, h14⟩

lemma engine_track_result_den {u : Bool} {mode : EngineTrackMode}
    {cur cp k d : TRat} (hc : cur.den ≠ 0) (hp : cp.den ≠ 0) (hk : k.den ≠ 0)
    (hd : d.den ≠ 0) :
    ∀ r, engine_track_result u mode cur cp k d = some r → r.den ≠ 0 := by
  intro r h
  unfold engine_track_result at h
  split at h
  · cases h
    exact rational_add_den hc hd
  · exact apply_track_mode_den hc hp hk h

lemma engine_success_state_densOk {config : Config} {s4 : TRTSState}
    {nu nb ub bb : TRat} (hd : DensOk s4) (hnu : nu.den ≠ 0)
    (hnb : nb.den ≠ 0) (hub : ub.den ≠ 0) (hbb : bb.den ≠ 0) :
    DensOk (engine_success_state config s4 nu nb ub bb) := by
  obtain ⟨h1, h2, h3, h4, h5, h6, h7, h8, h9, h10, h11, h12, h13, h14⟩ := hd
  exact ⟨hnu, hnb, h3, h4, h5, hub, hbb, rational_sub_den hnu hub,
    rational_sub_den hnb hbb, h10, h11, h12, h13, h14⟩

lemma engine_failure_state_densOk {s4 : TRTSState} (hd : DensOk s4) :
    DensOk (engine_failure_state s4) := hd

lemma engine_step_densOk (globals : EngineGlobals) (config : Config)
    (s : TRTSState) (microtick : Nat) (hd : DensOk s) :
    DensOk (engine_step globals config s microtick).2 := by
  have hS1 : DensOk (engine_delta_state s) := engine_delta_state_densOk hd
  obtain ⟨h1, h2, h3, h4, h5, h6, h7, h8, h9, h10, h11, h12, h13, h14⟩ := hS1
  have hures := @engine_track_result_den (!config.dual_track_mode &&
      config.engine_mode == EngineMode.DELTA_ADD)
    ((engine_mode_pipeline config s microtick).1) _ _ _ _ h1 h2 h3 h8
  have hbres := @engine_track_result_den (!config.dual_track_mode &&
      config.engine_mode == EngineMode.DELTA_ADD)
    ((engine_mode_pipeline config s microtick).2) _ _ _ _ h2 h1 h3 h9
  have hcand := @apply_delta_cross_den config (engine_delta_state s) _ _
    (option_getD_den h1 hures) (option_getD_den h2 hbres) h8 h9 h3
  have hflip := @apply_sign_flip_den config
      ((engine_delta_state s).sign_flip_polarity) _ _
    hcand.1 hcand.2
  unfold engine_step
  dsimp only
  split
  · refine engine_success_state_densOk ?_ hflip.1 hflip.2 hd.1 hd.2.1
    apply apply_modular_wrap_densOk
    apply update_triangle_densOk
    exact ⟨h1, h2, h3, h4, h5, h6, h7, h8, h9, h10, h11, h12, h13, h14⟩
  · apply engine_failure_state_densOk
    apply apply_modular_wrap_densOk
    apply update_triangle_densOk
    exact ⟨h1, h2, h3, h4, h5, h6, h7, h8, h9, h10, h11, h12, h13, h14⟩


lemma amw_stack (config : Config) (s : TRTSState) :
    (apply_modular_wrap config s).koppa_stack = s.koppa_stack :=
  (apply_modular_wrap_fields config s).2.2.2.2.2.2.2.2.2.2.2.1

lemma utr_stack (config : Config) (s : TRTSState) :
    (update_triangle config s).koppa_stack = s.koppa_stack :=
  (update_triangle_fields config s).2.2.2.2.2.2.2.2.2.1

lemma amw_tick (config : Config) (s : TRTSState) :
    (apply_modular_wrap config s).tick = s.tick :=
  (apply_modular_wrap_fields config s).2.2.2.2.2.2.2.2.2.2.2.2.2.2.2.2.2

lemma utr_tick (config : Config) (s : TRTSState) :
    (update_triangle config s).tick = s.tick :=
  (update_triangle_fields config s).2.2.2.2.2.2.2.2.2.2.2.2.2.2.2

lemma amw_rho_p (config : Config) (s : TRTSState) :
    (apply_modular_wrap config s).rho_pending = s.rho_pending :=
  (apply_modular_wrap_fields config s).2.2.2.2.2.2.2.2.2.2.2.2.2.1

lemma utr_rho_p (config : Config) (s : TRTSState) :
    (update_triangle config s).rho_pending = s.rho_pending :=
  (update_triangle_fields config s).2.2.2.2.2.2.2.2.2.2.2.1

lemma amw_rho_l (config : Config) (s : TRTSState) :
    (apply_modular_wrap config s).rho_latched = s.rho_latched :=
  (apply_modular_wrap_fields config s).2.2.2.2.2.2.2.2.2.2.2.2.2.2.1

lemma utr_rho_l (config : Config) (s : TRTSState) :
    (update_triangle config s).rho_latched = s.rho_latched :=
  (update_triangle_fields config s).2.2.2.2.2.2.2.2.2.2.2.2.1

lemma amw_psi_recent (config : Config) (s : TRTSState) :
    (apply_modular_wrap config s).psi_recent = s.psi_recent :=
  (apply_modular_wrap_fields config s).2.2.2.2.2.2.2.2.2.2.2.2.2.2.2.1

lemma utr_psi_recent (config : Config) (s : TRTSState) :
    (update_triangle config s).psi_recent = s.psi_recent :=
  (update_triangle_fields config s).2.2.2.2.2.2.2.2.2.2.2.2.2.1

lemma amw_epsilon (config : Config) (s : TRTSState) :
    (apply_modular_wrap config s).epsilon = s.epsilon :=
  (apply_modular_wrap_fields config s).2.2.1

lemma utr_epsilon (config : Config) (s : TRTSState) :
    (update_triangle config s).epsilon = s.epsilon :=
  (update_triangle_fields config s).2.2.2.1

lemma amw_phi (config : Config) (s : TRTSState) :
    (apply_modular_wrap config s).phi = s.phi :=
  (apply_modular_wrap_fields config s).2.2.2.1

lemma utr_phi (config : Config) (s : TRTSState) :
    (update_triangle config s).phi = s.phi :=
  (update_triangle_fields config s).2.2.2.2.1

lemma engine_success_state_fields (config : Config) (s4 : TRTSState)
    (nu nb ub bb : TRat) :
    (engine_success_state config s4 nu nb ub bb).koppa_stack = s4.koppa_stack ∧
    (engine_success_state config s4 nu nb ub bb).tick = s4.tick ∧
    (engine_success_state config s4 nu nb ub bb).rho_pending = s4.rho_pending ∧
    (engine_success_state config s4 nu nb ub bb).rho_latched = s4.rho_latched ∧
    (engine_success_state config s4 nu nb ub bb).psi_recent = s4.psi_recent ∧
    (engine_success_state config s4 nu nb ub bb).epsilon = s4.epsilon ∧
    (engine_success_state config s4 nu nb ub bb).phi = s4.phi :=
  ⟨rfl, rfl, rfl, rfl, rfl, rfl, rfl⟩

lemma engine_failure_state_fields (s4 : TRTSState) :
    (engine_failure_state s4).koppa_stack = s4.koppa_stack ∧
    (engine_failure_state s4).tick = s4.tick ∧
    (engine_failure_state s4).rho_pending = s4.rho_pending ∧
    (engine_failure_state s4).rho_latched = s4.rho_latched ∧
    (engine_failure_state s4).psi_recent = s4.psi_recent ∧
    (engine_failure_state s4).epsilon = s4.epsilon ∧
    (engine_failure_state s4).phi = s4.phi :=
  ⟨rfl, rfl, rfl, rfl, rfl, rfl, rfl⟩

lemma engine_step_stack (globals : EngineGlobals) (config : Config)
    (s : TRTSState) (microtick : Nat) :
    (engine_step globals config s microtick).2.koppa_stack = s.koppa_stack := by
  unfold engine_step
  dsimp only
  split
  · rw [(engine_success_state_fields _ _ _ _ _ _).1, amw_stack, utr_stack]
    rfl
  · rw [(engine_failure_state_fields _).1, amw_stack, utr_stack]
    rfl

lemma engine_step_tick (globals : EngineGlobals) (config : Config)
    (s : TRTSState) (microtick : Nat) :
    (engine_step globals config s microtick).2.tick = s.tick := by
  unfold engine_step
  dsimp only
  split
  · rw [(engine_success_state_fields _ _ _ _ _ _).2.1, amw_tick, utr_tick]
    rfl
  · rw [(engine_failure_state_fields _).2.1, amw_tick, utr_tick]
    rfl

lemma engine_step_rho_p (globals : EngineGlobals) (config : Config)
    (s : TRTSState) (microtick : Nat) :
    (engine_step globals config s microtick).2.rho_pending = s.rho_pending := by
  unfold engine_step
  dsimp only
  split
  · rw [(engine_success_state_fields _ _ _ _ _ _).2.2.1, amw_rho_p, utr_rho_p]
    rfl
  · rw [(engine_failure_state_fields _).2.2.1, amw_rho_p, utr_rho_p]
    rfl

lemma engine_step_rho_l (globals : EngineGlobals) (config : Config)
    (s : TRTSState) (microtick : Nat) :
    (engine_step globals config s microtick).2.rho_latched = s.rho_latched := by
  unfold engine_step
  dsimp only
  split
  · rw [(engine_success_state_fields _ _ _ _ _ _).2.2.2.1, amw_rho_l, utr_rho_l]
    rfl
  · rw [(engine_failure_state_fields _).2.2.2.1, amw_rho_l, utr_rho_l]
    rfl

lemma engine_step_psi_recent (globals : EngineGlobals) (config : Config)
    (s : TRTSState) (microtick : Nat) :
    (engine_step globals config s microtick).2.psi_recent = s.psi_recent := by
  unfold engine_step
  dsimp only
  split
  · rw [(engine_success_state_fields _ _ _ _ _ _).2.2.2.2.1, amw_psi_recent, utr_psi_recent]
    rfl
  · rw [(engine_failure_state_fields _).2.2.2.2.1, amw_psi_recent, utr_psi_recent]
    rfl

lemma engine_step_epsilon (globals : EngineGlobals) (config : Config)
    (s : TRTSState) (microtick : Nat) :
    (engine_step globals config s microtick).2.epsilon = s.epsilon := by
  unfold engine_step
  dsimp only
  split
  · rw [(engine_success_state_fields _ _ _ _ _ _).2.2.2.2.2.1, amw_epsilon, utr_epsilon]
    rfl
  · rw [(engine_failure_state_fields _).2.2.2.2.2.1, amw_epsilon, utr_epsilon]
    rfl

lemma engine_step_phi (globals : EngineGlobals) (config : Config)
    (s : TRTSState) (microtick : Nat) :
    (engine_step globals config s microtick).2.phi = s.phi := by
  unfold engine_step
  dsimp only
  split
  · rw [(engine_success_state_fields _ _ _ _ _ _).2.2.2.2.2.2, amw_phi, utr_phi]
    rfl
  · rw [(engine_failure_state_fields _).2.2.2.2.2.2, amw_phi, utr_phi]
    rfl

lemma e_phase_densOk (globals : EngineGlobals) (config : Config)
    (s : TRTSState) (microtick : Nat) (hd : DensOk s) :
    DensOk (e_phase globals config s microtick).1 := by
  obtain ⟨h1, h2, h3, h4, h5, h6, h7, h8, h9, h10, h11, h12, h13, h14⟩ := hd
  have hd1 : DensOk { s with epsilon := s.upsilon } :=
    ⟨h1, h2, h3, h1, h5, h6, h7, h8, h9, h10, h11, h12, h13, h14⟩
  have hd2 := engine_step_densOk globals config
    { s with epsilon := s.upsilon } microtick
  unfold e_phase
  dsimp only
  split <;> (try split) <;> (try split) <;> (try split) <;> exact hd2 hd1

lemma m_phase_densOk (config : Config) (s : TRTSState) (microtick : Nat)
    (hd : DensOk s) : DensOk (m_phase config s microtick).1 := by
  unfold m_phase
  dsimp only
  split
  · split
    · apply koppa_accrue_densOk
      exact psi_transform_densOk _ _ hd
    · apply koppa_accrue_densOk
      exact psi_transform_densOk _ _ hd
  · split
    · apply koppa_accrue_densOk
      exact hd
    · apply koppa_accrue_densOk
      exact hd

lemma r_phase_densOk (config : Config) (s : TRTSState) (microtick : Nat)
    (hd : DensOk s) : DensOk (r_phase config s microtick) := by
  unfold r_phase
  dsimp only
  exact koppa_accrue_densOk _ _ _ _ _ hd

lemma clear_microtick_flags_densOk (s : TRTSState) (hd : DensOk s) :
    DensOk (clear_microtick_flags s) := by
  obtain ⟨h1, h2, h3, h4, h5, h6, h7, h8, h9, h10, h11, h12, h13, h14⟩ := hd
  exact ⟨h1, h2, h3, h4, h5, h6, h7, h8, h9, h10, h11, h12, h3, h14⟩

lemma microtick_step_densOk (globals : EngineGlobals) (config : Config)
    (tick microtick : Nat) (s : TRTSState) (hd : DensOk s) :
    DensOk (microtick_step globals config tick microtick s).1 := by
  have hd0 : DensOk { clear_microtick_flags s with tick := tick } :=
    clear_microtick_flags_densOk s hd
  unfold microtick_step
  dsimp only
  split
  · exact e_phase_densOk _ _ _ _ hd0
  · exact m_phase_densOk _ _ _ hd0
  · exact r_phase_densOk _ _ _ hd0

lemma microtick_step_obs_state (globals : EngineGlobals) (config : Config)
    (tick microtick : Nat) (s : TRTSState) :
    (microtick_step globals config tick microtick s).2.state =
      (microtick_step globals config tick microtick s).1 := by
  unfold microtick_step
  dsimp only
  split <;> rfl

lemma run_steps_inv {globals : EngineGlobals} {config : Config}
    (P : TRTSState → Prop)
    (hstep : ∀ t m s, P s → P (microtick_step globals config t m s).1) :
    ∀ (L : List (Nat × Nat)) (s : TRTSState), P s →
      P (run_steps globals config L s).1 ∧
      ∀ o ∈ (run_steps globals config L s).2, P o.state := by
  intro L
  induction L with
  | nil =>
    intro s hp
    exact ⟨hp, fun o ho => absurd ho (by simp [run_steps])⟩
  | cons p rest ih =>
    intro s hp
    have hp1 := hstep p.1 p.2 s hp
    obtain ⟨hfin, hall⟩ := ih _ hp1
    refine ⟨hfin, ?_⟩
    intro o ho
    simp only [run_steps, List.mem_cons] at ho
    rcases ho with ho | ho
    · rw [ho, microtick_step_obs_state]
      exact hp1
    · exact hall o ho

lemma run_steps_len (globals : EngineGlobals) (config : Config) :
    ∀ (L : List (Nat × Nat)) (s : TRTSState),
      (run_steps globals config L s).2.length = L.length := by
  intro L
  induction L with
  | nil => intro s; rfl
  | cons p rest ih =>
    intro s
    simp only [run_steps, List.length_cons]
    rw [ih]

lemma schedule_len : ∀ T : Nat, (schedule T).length = T * 11 := by
  intro T
  induction T with
  | zero => rfl
  | succ n ih =>
    simp only [schedule, List.length_append, List.length_map,
      List.length_range, ih]
    omega

lemma state_reset_densOk (config : Config) (h : SeedsOk config) :
    DensOk (state_reset config) := by
  obtain ⟨h1, h2, h3⟩ := h
  exact ⟨h1, h2, h3, h1, h2, h1, h2, one_ne_zero, one_ne_zero, one_ne_zero,
    one_ne_zero, one_ne_zero, h3, fun x hx => absurd hx (by simp [state_reset])⟩

lemma amw_upsilon2 (config : Config) (s : TRTSState) :
    (apply_modular_wrap config s).upsilon = s.upsilon :=
  (apply_modular_wrap_fields config s).1

lemma amw_beta2 (config : Config) (s : TRTSState) :
    (apply_modular_wrap config s).beta = s.beta :=
  (apply_modular_wrap_fields config s).2.1

lemma amw_prevu2 (config : Config) (s : TRTSState) :
    (apply_modular_wrap config s).previous_upsilon = s.previous_upsilon :=
  (apply_modular_wrap_fields config s).2.2.2.2.1

lemma amw_prevb2 (config : Config) (s : TRTSState) :
    (apply_modular_wrap config s).previous_beta = s.previous_beta :=
  (apply_modular_wrap_fields config s).2.2.2.2.2.1

lemma amw_du2 (config : Config) (s : TRTSState) :
    (apply_modular_wrap config s).delta_upsilon = s.delta_upsilon :=
  (apply_modular_wrap_fields config s).2.2.2.2.2.2.1

lemma amw_db2 (config : Config) (s : TRTSState) :
    (apply_modular_wrap config s).delta_beta = s.delta_beta :=
  (apply_modular_wrap_fields config s).2.2.2.2.2.2.2.1

lemma utr_upsilon2 (config : Config) (s : TRTSState) :
    (update_triangle config s).upsilon = s.upsilon :=
  (update_triangle_fields config s).1

lemma utr_beta2 (config : Config) (s : TRTSState) :
    (update_triangle config s).beta = s.beta :=
  (update_triangle_fields config s).2.1

lemma utr_koppa2 (config : Config) (s : TRTSState) :
    (update_triangle config s).koppa = s.koppa :=
  (update_triangle_fields config s).2.2.1

lemma utr_prevu2 (config : Config) (s : TRTSState) :
    (update_triangle config s).previous_upsilon = s.previous_upsilon :=
  (update_triangle_fields config s).2.2.2.2.2.1

lemma utr_prevb2 (config : Config) (s : TRTSState) :
    (update_triangle config s).previous_beta = s.previous_beta :=
  (update_triangle_fields config s).2.2.2.2.2.2.1

lemma utr_du2 (config : Config) (s : TRTSState) :
    (update_triangle config s).delta_upsilon = s.delta_upsilon :=
  (update_triangle_fields config s).2.2.2.2.2.2.2.1

lemma utr_db2 (config : Config) (s : TRTSState) :
    (update_triangle config s).delta_beta = s.delta_beta :=
  (update_triangle_fields config s).2.2.2.2.2.2.2.2.1

/-- C8 counterexample: one standard ψ from υ = −3/5, β = 5/7 (a state the
simulator reaches whenever ψ fires on a negative υ numerator) stores
υ = 25/−21: the denominator is not strictly positive. -/
theorem C8_positive_den_cex :
    (standard_psi negNumState).map (fun t => t.upsilon) = some ⟨25, -21⟩ ∧
    ¬(0 < (-21 : Int)) := by decide

/-- C8 (amended): every rational held in the state — υ, β, ϙ, ε, φ, previous
values, deltas, triangle ratios, sample and stack slots — keeps a NON-ZERO
denominator after every operation of the simulator (for seeds with non-zero
denominators); strict positivity does not hold, since ψ and SLIDE division
cross-multiply signs into the denominator. -/
theorem C8_denominators_nonzero (globals : EngineGlobals) (config : Config)
    (h : SeedsOk config) :
    ∀ o ∈ run_simulation globals config, DensOk o.state := by
  intro o ho
  exact (run_steps_inv DensOk
    (fun t m s hd => microtick_step_densOk globals config t m s hd)
    (schedule config.ticks) (state_reset config)
    (state_reset_densOk config h)).2 o ho

/-- C8 witness: the amended theorem applied to the SLIDE configuration's
first emitted observation. -/
theorem C8_denominators_nonzero_witness :
    SeedsOk slideCfg ∧
    DensOk ((run_simulation g0 slideCfg).getD 0 defaultObs).state :=
  ⟨⟨by decide, by decide, by decide⟩,
   C8_denominators_nonzero g0 slideCfg ⟨by decide, by decide, by decide⟩ _
     (by decide)⟩

/-- C3 counterexample: with the SLIDE engine and ϙ = 0/1 the engine step at
microtick 1 fails, yet the state is NOT left unchanged: δυ is recomputed
from 0/1 to the raw difference 0/25 (υ₀ = 3/5), so a field differs from its
pre-step value. -/
theorem C3_failure_changes_deltas_cex :
    (engine_step g0 slideCfg slideState 1).1 = false ∧
    (engine_step g0 slideCfg slideState 1).2.delta_upsilon = ⟨0, 25⟩ ∧
    slideState.delta_upsilon = ⟨0, 1⟩ ∧
    (engine_step g0 slideCfg slideState 1).2 ≠ slideState := by decide

/-- C3 (amended): a failed engine step returns false and leaves υ, β, the
ϙ-stack, the ρ flags, psi_recent and the previous values unchanged (and ϙ
too when modular wrap is off), but δυ and δβ are still recomputed as the raw
differences current − previous; and the simulation always continues: every
run emits exactly ticks × 11 observations, failing steps included. -/
theorem C3_engine_failure_no_commit :
    (∀ (globals : EngineGlobals) (config : Config) (s : TRTSState) (mt : Nat),
      (engine_step globals config s mt).1 = false →
      (engine_step globals config s mt).2.upsilon = s.upsilon ∧
      (engine_step globals config s mt).2.beta = s.beta ∧
      (config.enable_modular_wrap = false →
        (engine_step globals config s mt).2.koppa = s.koppa) ∧
      (engine_step globals config s mt).2.koppa_stack = s.koppa_stack ∧
      (engine_step globals config s mt).2.rho_pending = s.rho_pending ∧
      (engine_step globals config s mt).2.rho_latched = s.rho_latched ∧
      (engine_step globals config s mt).2.psi_recent = s.psi_recent ∧
      (engine_step globals config s mt).2.previous_upsilon = s.previous_upsilon ∧
      (engine_step globals config s mt).2.previous_beta = s.previous_beta ∧
      (engine_step globals config s mt).2.delta_upsilon =
        rational_delta s.upsilon s.previous_upsilon ∧
      (engine_step globals config s mt).2.delta_beta =
        rational_delta s.beta s.previous_beta) ∧
    (∀ (globals : EngineGlobals) (config : Config),
      (run_simulation globals config).length = config.ticks * 11) := by
  constructor
  · intro globals config s mt h
    unfold engine_step at h ⊢
    dsimp only at h ⊢
    split at h
    · exact absurd h (by simp)
    · rename_i hcond
      rw [if_neg hcond]
      refine ⟨?_, ?_, ?_, ?_, ?_, ?_, ?_, ?_, ?_, ?_, ?_⟩
      · rw [show ∀ s4, (engine_failure_state s4).upsilon = s4.upsilon
          from fun _ => rfl, amw_upsilon2, utr_upsilon2]
        rfl
      · rw [show ∀ s4, (engine_failure_state s4).beta = s4.beta
          from fun _ => rfl, amw_beta2, utr_beta2]
        rfl
      · intro hw
        rw [show ∀ s4, (engine_failure_state s4).koppa = s4.koppa
          from fun _ => rfl, apply_modular_wrap_koppa _ _ hw, utr_koppa2]
        rfl
      · rw [show ∀ s4, (engine_failure_state s4).koppa_stack = s4.koppa_stack
          from fun _ => rfl, amw_stack, utr_stack]
        rfl
      · rw [show ∀ s4, (engine_failure_state s4).rho_pending = s4.rho_pending
          from fun _ => rfl, amw_rho_p, utr_rho_p]
        rfl
      · rw [show ∀ s4, (engine_failure_state s4).rho_latched = s4.rho_latched
          from fun _ => rfl, amw_rho_l, utr_rho_l]
        rfl
      · rw [show ∀ s4, (engine_failure_state s4).psi_recent = s4.psi_recent
          from fun _ => rfl, amw_psi_recent, utr_psi_recent]
        rfl
      · rw [show ∀ s4, (engine_failure_state s4).previous_upsilon =
            s4.previous_upsilon from fun _ => rfl, amw_prevu2, utr_prevu2]
        rfl
      · rw [show ∀ s4, (engine_failure_state s4).previous_beta =
            s4.previous_beta from fun _ => rfl, amw_prevb2, utr_prevb2]
        rfl
      · rw [show ∀ s4, (engine_failure_state s4).delta_upsilon =
            s4.delta_upsilon from fun _ => rfl, amw_du2, utr_du2]
        rfl
      · rw [show ∀ s4, (engine_failure_state s4).delta_beta = s4.delta_beta
          from fun _ => rfl, amw_db2, utr_db2]
        rfl
  · intro globals config
    unfold run_simulation
    rw [run_steps_len, schedule_len]

/-- C3 witness: the amended theorem applied to the failing SLIDE step and to
the SLIDE run's emission count. -/
theorem C3_engine_failure_no_commit_witness :
    (engine_step g0 slideCfg slideState 1).1 = false ∧
    (engine_step g0 slideCfg slideState 1).2.upsilon = slideState.upsilon ∧
    (run_simulation g0 slideCfg).length = 11 :=
  ⟨by decide,
   (C3_engine_failure_no_commit.1 g0 slideCfg slideState 1 (by decide)).1,
   (C3_engine_failure_no_commit.2 g0 slideCfg).trans (by decide)⟩

lemma microtick_step_globals (g1 g2 : EngineGlobals) :
    microtick_step g1 = microtick_step g2 := rfl

lemma run_steps_globals (g1 g2 : EngineGlobals) (config : Config) :
    ∀ (L : List (Nat × Nat)) (s : TRTSState),
      run_steps g1 config L s = run_steps g2 config L s := by
  intro L
  induction L with
  | nil => intro s; rfl
  | cons p rest ih =>
    intro s
    simp only [run_steps]
    rw [microtick_step_globals g1 g2, ih]

/-- C9: the simulator is deterministic: the observation sequence delivered
to the observer is a pure function of the Config. In particular the stray
file-scope ratio-trigger globals of engine.c (threaded here as
`EngineGlobals`) never influence the run: any two global assignments yield
identical observation streams, so two `simulate_stream` runs with equal
Config values invoke the observer with identical data at every microtick. -/
theorem C9_deterministic (g1 g2 : EngineGlobals) (config : Config) :
    simulate_stream g1 config = simulate_stream g2 config := by
  unfold simulate_stream run_simulation
  rw [run_steps_globals g1 g2]

lemma e_phase_stack (globals : EngineGlobals) (config : Config)
    (s : TRTSState) (microtick : Nat) :
    (e_phase globals config s microtick).1.koppa_stack = s.koppa_stack := by
  unfold e_phase
  dsimp only
  split <;> (try split) <;> (try split) <;> (try split) <;>
    exact engine_step_stack globals config _ microtick

lemma m_phase_stack (config : Config) (s : TRTSState) (microtick : Nat)
    (h2 : config.multi_level_koppa = false) :
    (m_phase config s microtick).1.koppa_stack = s.koppa_stack := by
  unfold m_phase
  dsimp only
  split
  · split
    · exact (koppa_accrue_stack config _ _ _ _ h2).trans
        ((psi_transform_stack config _).1)
    · exact (koppa_accrue_stack config _ _ _ _ h2).trans
        ((psi_transform_stack config _).1)
  · split
    · exact koppa_accrue_stack config _ _ _ _ h2
    · exact koppa_accrue_stack config _ _ _ _ h2

lemma r_phase_stack (config : Config) (s : TRTSState) (microtick : Nat)
    (h2 : config.multi_level_koppa = false) :
    (r_phase config s microtick).koppa_stack = s.koppa_stack := by
  unfold r_phase
  dsimp only
  exact koppa_accrue_stack config _ _ _ _ h2

lemma microtick_step_stack (globals : EngineGlobals) (config : Config)
    (tick microtick : Nat) (s : TRTSState)
    (h2 : config.multi_level_koppa = false) :
    (microtick_step globals config tick microtick s).1.koppa_stack =
      s.koppa_stack := by
  unfold microtick_step
  dsimp only
  split
  · exact e_phase_stack globals config _ microtick
  · exact m_phase_stack config _ microtick h2
  · exact r_phase_stack config _ microtick h2

lemma m_phase_not_fired (config : Config) (s : TRTSState) (microtick : Nat)
    (hallow : stack_allows_psi config s = false) :
    (m_phase config s microtick).2.1 = false := by
  unfold m_phase
  dsimp only
  rw [hallow]
  simp only [Bool.and_false]
  split
  · rename_i hff
    exact absurd hff (by simp)
  · rfl

lemma run_steps_inv2 {globals : EngineGlobals} {config : Config}
    (P : TRTSState → Prop) (Q : Observation → Prop)
    (hstep : ∀ t m s, P s → P (microtick_step globals config t m s).1)
    (hobs : ∀ t m s, P s → Q (microtick_step globals config t m s).2) :
    ∀ (L : List (Nat × Nat)) (s : TRTSState), P s →
      ∀ o ∈ (run_steps globals config L s).2, Q o := by
  intro L
  induction L with
  | nil =>
    intro s _ o ho
    exact absurd ho (by simp [run_steps])
  | cons p rest ih =>
    intro s hp o ho
    simp only [run_steps, List.mem_cons] at ho
    rcases ho with ho | ho
    · rw [ho]
      exact hobs p.1 p.2 s hp
    · exact ih _ (hstep p.1 p.2 s hp) o ho

lemma stack_allows_false (config : Config) (s : TRTSState)
    (h1 : config.enable_stack_depth_modes = true)
    (hs : s.koppa_stack = []) : stack_allows_psi config s = false := by
  unfold stack_allows_psi
  rw [h1, hs]
  rfl

/-- C10: with stack-depth modes enabled and multi-level ϙ disabled, nothing
ever pushes onto the ϙ-stack, so at every observation point of every run the
stack is empty, the stack gate refuses ψ, and ψ never fires on any M
microtick. -/
theorem C10_no_psi_without_multilevel (globals : EngineGlobals)
    (config : Config) (h1 : config.enable_stack_depth_modes = true)
    (h2 : config.multi_level_koppa = false) :
    ∀ o ∈ run_simulation globals config,
      o.state.koppa_stack = [] ∧ stack_allows_psi config o.state = false ∧
      (o.phase = Phase.M → o.psi_fired = false) := by
  intro o ho
  refine run_steps_inv2 (fun s => s.koppa_stack = [])
    (fun o => o.state.koppa_stack = [] ∧
      stack_allows_psi config o.state = false ∧
      (o.phase = Phase.M → o.psi_fired = false)) ?_ ?_
    (schedule config.ticks) (state_reset config) rfl o ho
  · intro t m s hp
    exact (microtick_step_stack globals config t m s h2).trans hp
  · intro t m s hp
    have hstate : (microtick_step globals config t m s).2.state.koppa_stack
        = [] := by
      rw [microtick_step_obs_state]
      exact (microtick_step_stack globals config t m s h2).trans hp
    refine ⟨hstate, stack_allows_false config _ h1 hstate, ?_⟩
    intro hM
    have hs0 : ({ clear_microtick_flags s with tick := t } :
        TRTSState).koppa_stack = [] := hp
    rcases hph : phase_for_microtick m with - | - | -
    · have hE : (microtick_step globals config t m s).2.phase = Phase.E := by
        simp only [microtick_step, hph]
      rw [hE] at hM
      cases hM
    · simp only [microtick_step, hph]
      exact m_phase_not_fired config _ m (stack_allows_false config _ h1 hs0)
    · have hR : (microtick_step globals config t m s).2.phase = Phase.R := by
        simp only [microtick_step, hph]
      rw [hR] at hM
      cases hM

/-- C10 witness: the theorem applied to the SLIDE configuration with
stack-depth modes on and multi-level ϙ off, at its first observation. -/
theorem C10_no_psi_without_multilevel_witness :
    (({ slideCfg with enable_stack_depth_modes := true } :
      Config).enable_stack_depth_modes = true) ∧
    ((run_simulation g0 { slideCfg with enable_stack_depth_modes := true
      }).getD 0 defaultObs).state.koppa_stack = [] :=
  ⟨rfl,
   (C10_no_psi_without_multilevel g0
     { slideCfg with enable_stack_depth_modes := true } rfl rfl _
     (by decide)).1⟩

/-- C5 (amended): on an M microtick (given non-zero υ, β, ϙ components), ψ
fires iff the request per psi_mode (MSTEP/MSTEP_RHO: always; RHO_ONLY: iff
rho_pending; INHIBIT_RHO: iff ¬rho_pending) or a ratio force condition
holds, AND the stack gate allows it, AND psi_transform's own gates pass: in
RHO_ONLY/MSTEP_RHO modes rho_pending with a Fibonacci tick, and in every
mode rho_pending or psi_mode = MSTEP. In particular MSTEP_RHO does not
always fire, and the ratio force conditions do not bypass the ρ/Fibonacci
gates. -/
theorem C5_m_step_fire_condition (config : Config) (s : TRTSState)
    (microtick : Nat) (hn : NonzeroComponents s) :
    (m_phase config s microtick).2.1 =
      ((should_fire_psi config s true (stack_allows_psi config s) ||
        ratio_in_range config s || ratio_threshold_outside config s) &&
       stack_allows_psi config s &&
       !((config.psi_mode == PsiMode.RHO_ONLY ||
          config.psi_mode == PsiMode.MSTEP_RHO) &&
         (!s.rho_pending || !is_fibonacci_tick s.tick)) &&
       (s.rho_pending || config.psi_mode == PsiMode.MSTEP)) := by
  unfold m_phase
  dsimp only
  by_cases hthr : ratio_threshold_outside config s = true
  · rw [if_pos hthr]
    split
    · rename_i hcond
      rw [psi_transform_fired_iff config
        { s with ratio_threshold_recent := true } hn]
      rw [hcond]
      simp only [Bool.true_and]
    · rename_i hcond
      rw [Bool.not_eq_true] at hcond
      rw [hcond]
      simp
  · rw [if_neg hthr]
    split
    · rename_i hcond
      rw [psi_transform_fired_iff config _ hn]
      rw [hcond]
      simp only [Bool.true_and]
    · rename_i hcond
      rw [Bool.not_eq_true] at hcond
      rw [hcond]
      simp

/-- C5 counterexample: in MSTEP_RHO mode with rho_pending latched, the stack
gate open and non-zero operands (υ = 3/5, β = 5/7, ϙ = 1/1), ψ does NOT fire
on the M microtick at tick 1 — psi_transform's Fibonacci-tick gate refuses —
contradicting "MSTEP_RHO: always". -/
theorem C5_mstep_rho_cex :
    mstepRhoCfg.psi_mode = PsiMode.MSTEP_RHO ∧
    mrState.rho_pending = true ∧
    stack_allows_psi mstepRhoCfg mrState = true ∧
    mrState.upsilon.num = 3 ∧ mrState.beta.num = 5 ∧ mrState.koppa.num = 1 ∧
    (m_phase mstepRhoCfg mrState 2).2.1 = false := by decide

/-- C5 witness: the amended characterization applied at the plain MSTEP
configuration's M microtick. -/
theorem C5_m_step_fire_condition_witness :
    (m_phase baseConfig exPsiState 2).2.1 =
      ((should_fire_psi baseConfig exPsiState true
          (stack_allows_psi baseConfig exPsiState) ||
        ratio_in_range baseConfig exPsiState ||
        ratio_threshold_outside baseConfig exPsiState) &&
       stack_allows_psi baseConfig exPsiState &&
       !((baseConfig.psi_mode == PsiMode.RHO_ONLY ||
          baseConfig.psi_mode == PsiMode.MSTEP_RHO) &&
         (!exPsiState.rho_pending ||
          !is_fibonacci_tick exPsiState.tick)) &&
       (exPsiState.rho_pending || baseConfig.psi_mode == PsiMode.MSTEP)) :=
  C5_m_step_fire_condition baseConfig exPsiState 2
    ⟨by decide, by decide, by decide, by decide, by decide, by decide⟩

/-- C6: in ψ modes RHO_ONLY and MSTEP_RHO, ψ never fires on a memory step
unless rho_pending is true AND the current tick is in the fixed Fibonacci
table; in particular in RHO_ONLY with rho_pending at tick 7 ψ does not fire,
and at tick 13 (with non-zero operands) it fires. -/
theorem C6_fibonacci_tick_gate :
    (∀ (config : Config) (s : TRTSState) (mt : Nat),
      (config.psi_mode = PsiMode.RHO_ONLY ∨
       config.psi_mode = PsiMode.MSTEP_RHO) →
      (m_phase config s mt).2.1 = true →
      s.rho_pending = true ∧ is_fibonacci_tick s.tick = true) ∧
    (m_phase rhoOnlyCfg tick7State 2).2.1 = false ∧
    (m_phase rhoOnlyCfg tick13State 2).2.1 = true := by
  refine ⟨?_, by decide, by decide⟩
  intro config s mt hm hf
  unfold m_phase at hf
  dsimp only at hf
  by_cases hthr : ratio_threshold_outside config s = true
  · rw [if_pos hthr] at hf
    split at hf
    · exact psi_transform_gate config
        { s with ratio_threshold_recent := true } hm hf
    · exact absurd hf (by simp)
  · rw [if_neg hthr] at hf
    split at hf
    · exact psi_transform_gate config s hm hf
    · exact absurd hf (by simp)

/-- C6 witness: the gate direction applied at the firing tick-13 instance. -/
theorem C6_fibonacci_tick_gate_witness :
    tick13State.rho_pending = true ∧
    is_fibonacci_tick tick13State.tick = true :=
  C6_fibonacci_tick_gate.1 rhoOnlyCfg tick13State 2 (Or.inl rfl) (by decide)

lemma ratVal_zero_one : ratVal (rational_set_si 0 1) = 0 := by
  simp [ratVal, rational_set_si]

lemma koppa_value_eq {base u b : TRat} (hbase : base.den ≠ 0)
    (hu : u.den ≠ 0) (hb : b.den ≠ 0) :
    ratVal (mpq_canonicalize (rational_add base (rational_add u b))) =
      ratVal base + (ratVal u + ratVal b) := by
  rw [ratVal_canon (rational_add_den hbase (rational_add_den hu hb)),
      ratVal_add hbase (rational_add_den hu hb), ratVal_add hu hb]

/-- C4: the ϙ accumulator: when the configured trigger does not fire, ϙ is
left unchanged; when it fires, the current ϙ is first pushed onto the stack
iff multi-level ϙ is enabled (with the shift-out-oldest push), and the new ϙ
carries exactly the value (base reset per koppa_mode — DUMP: 0, POP: ε,
ACCUMULATE: ϙ + ε) plus (υ + β). -/
theorem C4_koppa_accrue_behaviour (config : Config) (s : TRTSState)
    (psi_fired is_memory : Bool) (mt : Nat)
    (hu : s.upsilon.den ≠ 0) (hb : s.beta.den ≠ 0) (hk : s.koppa.den ≠ 0)
    (he : s.epsilon.den ≠ 0) :
    ((match config.koppa_trigger with
      | KoppaTrigger.ON_PSI => psi_fired
      | KoppaTrigger.ON_MU_AFTER_PSI =>
          is_memory && !psi_fired && s.psi_recent
      | KoppaTrigger.ON_ALL_MU => is_memory) = false →
      (koppa_accrue config s psi_fired is_memory mt).koppa = s.koppa) ∧
    ((match config.koppa_trigger with
      | KoppaTrigger.ON_PSI => psi_fired
      | KoppaTrigger.ON_MU_AFTER_PSI =>
          is_memory && !psi_fired && s.psi_recent
      | KoppaTrigger.ON_ALL_MU => is_memory) = true →
      (config.multi_level_koppa = true →
        (koppa_accrue config s psi_fired is_memory mt).koppa_stack =
          koppa_stack_push s.koppa_stack s.koppa) ∧
      (config.multi_level_koppa = false →
        (koppa_accrue config s psi_fired is_memory mt).koppa_stack =
          s.koppa_stack) ∧
      ratVal (koppa_accrue config s psi_fired is_memory mt).koppa =
        (match config.koppa_mode with
         | KoppaMode.DUMP => 0
         | KoppaMode.POP => ratVal s.epsilon
         | KoppaMode.ACCUMULATE => ratVal s.koppa + ratVal s.epsilon) +
        (ratVal s.upsilon + ratVal s.beta)) := by
  constructor
  · intro htrig
    unfold koppa_accrue
    dsimp only
    rcases hct : config.koppa_trigger with - | - | - <;>
    · simp only [hct] at htrig ⊢
      rw [htrig]
      simp only [Bool.not_false]
      rw [if_pos trivial]
      split
      · exact (koppa_update_sample_fields _ _ _).2.2.1
      · exact (koppa_update_sample_fields _ _ _).2.2.1
  · intro htrig
    unfold koppa_accrue
    dsimp only
    rcases hct : config.koppa_trigger with - | - | - <;>
    · simp only [hct] at htrig ⊢
      rw [htrig]
      simp only [Bool.not_true]
      rw [if_neg (by simp : ¬(false = true))]
      refine ⟨?_, ?_, ?_⟩
      · intro hml
        rw [hml]
        rw [if_pos rfl]
        exact (koppa_update_sample_fields _ _ _).2.2.2.2.2.1
      · intro hml
        rw [hml]
        rw [if_neg (by simp : ¬(false = true))]
        exact (koppa_update_sample_fields _ _ _).2.2.2.2.2.1
      · split
        · cases config.koppa_mode with
          | DUMP =>
            rw [(koppa_update_sample_fields _ _ _).2.2.1,
              koppa_value_eq one_ne_zero hu hb, ratVal_zero_one]
          | POP =>
            rw [(koppa_update_sample_fields _ _ _).2.2.1,
              koppa_value_eq he hu hb]
          | ACCUMULATE =>
            rw [(koppa_update_sample_fields _ _ _).2.2.1,
              koppa_value_eq (mpq_canonicalize_den (rational_add_den hk he))
                hu hb,
              ratVal_canon (rational_add_den hk he), ratVal_add hk he]
        · cases config.koppa_mode with
          | DUMP =>
            rw [(koppa_update_sample_fields _ _ _).2.2.1,
              koppa_value_eq one_ne_zero hu hb, ratVal_zero_one]
          | POP =>
            rw [(koppa_update_sample_fields _ _ _).2.2.1,
              koppa_value_eq he hu hb]
          | ACCUMULATE =>
            rw [(koppa_update_sample_fields _ _ _).2.2.1,
              koppa_value_eq (mpq_canonicalize_den (rational_add_den hk he))
                hu hb,
              ratVal_canon (rational_add_den hk he), ratVal_add hk he]

/-- Witness for `C4_koppa_accrue_behaviour`: with the base configuration
(trigger ON_PSI, mode DUMP, single-level ϙ) and a fired ψ at microtick 2,
the stack is untouched and ϙ becomes 0 + (υ + β). -/
theorem C4_koppa_accrue_behaviour_witness :
    (state_reset baseConfig).upsilon.den ≠ 0 ∧
    (state_reset baseConfig).beta.den ≠ 0 ∧
    (state_reset baseConfig).koppa.den ≠ 0 ∧
    (state_reset baseConfig).epsilon.den ≠ 0 ∧
    ((koppa_accrue baseConfig (state_reset baseConfig) true true 2).koppa_stack =
      (state_reset baseConfig).koppa_stack ∧
     ratVal (koppa_accrue baseConfig (state_reset baseConfig) true true 2).koppa =
      0 + (ratVal (state_reset baseConfig).upsilon +
           ratVal (state_reset baseConfig).beta)) := by
  refine ⟨by decide, by decide, by decide, by decide, ?_⟩
  have h := (C4_koppa_accrue_behaviour baseConfig (state_reset baseConfig) true true 2
    (by decide) (by decide) (by decide) (by decide)).2 (by decide)
  exact ⟨h.2.1 rfl, h.2.2⟩
